import Mathlib

/-!
LotoScope web controller (`web/frontend/static/js/main.js`).

A shallow embedding of the `LotoScopeWeb` class: the four-state number
picker (`handleNumberClick`, `getNumberState`, `setNumberState`,
`clearSelection`), the risk-profile filter derivation
(`applyInversionLogic`, `applySomaTotalRules`, `updateFilterValue`,
`updateSomaFilter`), the retrieval of the prior contest
(`getUltimoConcursoData`, `applyTrendBasedFilters`), the sequential-analysis
path (`applySequentialFilters`), the bodies of the generation and probability
requests (`generateCombinations`, `calculateProbability`), the generate button
of `updateDisplay` and the texts of `formatAnaliseSection`.

Conventions of the embedding.
* JavaScript numbers that the class handles are integers; they are `Int`.
* `null` is `none`.
* The fields of the class become the fields of the structure `LotoScopeWeb`;
  every method is a function from the controller before the call to the
  controller after it.
* The text and class written to the `statusMessage` element by `showStatus`
  are kept in the field `status` (the arguments of the last call).
* The buttons of the number grid are kept in `gridButtons`, the list of the
  `data-number` values present in the page; `createNumbersGrid` makes it
  `1..25`. The CSS classes put on a button are presentation only, are read by
  no method, and are left out.
* `console.log` calls are left out.
* An answer of the server enters a method as an argument: the outcome of the
  `fetch` for the methods that make one, the parsed payload for the others.
  A thrown error is `Except.error`.
-/

namespace LotoScope

/-- The four strings used as the state of a grid cell. -/
inductive NumberState where
  | neutral
  | selected
  | mandatory
  | excluded
deriving DecidableEq, Repr

/-- The object `this.dynamicFilters`. -/
structure DynamicFilters where
  menor_que_ultimo : Option (List Int)
  maior_que_ultimo : Option (List Int)
  igual_ao_ultimo : Option (List Int)
  soma_total_min : Option Int
  soma_total_max : Option Int
deriving DecidableEq, Repr

/-- The two arguments of a `showStatus(message, type)` call. -/
structure Status where
  message : String
  type : String
deriving DecidableEq, Repr

/-- The fields of the class `LotoScopeWeb` that its logic reads or writes. -/
structure LotoScopeWeb where
  selectedNumbers : List Int
  mandatoryNumbers : List Int
  excludedNumbers : List Int
  fixedNumbers : List Int
  gameSize : Int
  quantity : Option Int
  riskProfile : String
  dynamicFilters : DynamicFilters
  status : Option Status
  gridButtons : List Int
deriving DecidableEq, Repr

/-- The record `ultimo_concurso_real` returned by `getUltimoConcursoData`. -/
structure UltimoConcurso where
  menor_que_ultimo : Int
  maior_que_ultimo : Int
  igual_ao_ultimo : Int
  soma_total : Int
  concurso : Int
deriving DecidableEq, Repr

/-- The value of `arr.sort((a, b) => a - b)` on an array of integers. -/
def sortAsc (l : List Int) : List Int :=
  l.insertionSort (fun a b => a ≤ b)

/-- The value of `arr.filter(n => n !== number)`. -/
def without (l : List Int) (number : Int) : List Int :=
  l.filter (fun n => n ≠ number)

/-- The numbers `1..25` for which `createNumbersGrid` makes a button. -/
def gridNumbers : List Int :=
  (List.range 25).map (fun (k : Nat) => (k : Int) + 1)

/-- The controller after `constructor()` and the synchronous part of `init()`. -/
def initial : LotoScopeWeb where
  selectedNumbers := []
  mandatoryNumbers := []
  excludedNumbers := []
  fixedNumbers := []
  gameSize := 15
  quantity := some 1
  riskProfile := "moderado"
  dynamicFilters := ⟨none, none, none, none, none⟩
  status := none
  gridButtons := gridNumbers

/-- Method `showStatus(message, type)`. -/
def showStatus (s : LotoScopeWeb) (message type : String) : LotoScopeWeb :=
  { s with status := some ⟨message, type⟩ }

/-- The message of the capacity guard of `setNumberState`. -/
def capacityMessage : String :=
  "⚠️ Máximo de 25 números entre selecionados e obrigatórios"

/-- The status left by the capacity guard of `setNumberState`. -/
def capacityWarning : Status :=
  ⟨capacityMessage, "warning"⟩

/-- Method `getNumberState(number)`. -/
def getNumberState (s : LotoScopeWeb) (number : Int) : NumberState :=
  if number ∈ s.selectedNumbers then .selected
  else if number ∈ s.mandatoryNumbers then .mandatory
  else if number ∈ s.excludedNumbers then .excluded
  else .neutral

/-- The controller of `setNumberState` once `number` has been filtered out of
the four lists. -/
def removeNumber (s : LotoScopeWeb) (number : Int) : LotoScopeWeb :=
  { s with
    selectedNumbers := without s.selectedNumbers number
    mandatoryNumbers := without s.mandatoryNumbers number
    excludedNumbers := without s.excludedNumbers number
    fixedNumbers := without s.fixedNumbers number }

/-- Method `setNumberState(number, state)`. -/
def setNumberState (s : LotoScopeWeb) (number : Int) (state : NumberState) : LotoScopeWeb :=
  if number ∉ s.gridButtons then s
  else
    let r := removeNumber s number
    match state with
    | .selected =>
      let totalSelected := r.selectedNumbers.length + r.mandatoryNumbers.length
      if totalSelected ≥ 25 then
        showStatus r capacityMessage "warning"
      else
        showStatus
          { r with
            selectedNumbers := sortAsc (r.selectedNumbers ++ [number])
            fixedNumbers := sortAsc (r.fixedNumbers ++ [number]) }
          ("🔵 Número " ++ toString number ++ " selecionado para estratégia percentual") "info"
    | .mandatory =>
      let totalMandatory := r.selectedNumbers.length + r.mandatoryNumbers.length
      if totalMandatory ≥ 25 then
        showStatus r capacityMessage "warning"
      else
        showStatus
          { r with
            mandatoryNumbers := sortAsc (r.mandatoryNumbers ++ [number])
            fixedNumbers := sortAsc (r.fixedNumbers ++ [number]) }
          ("🟡 Número " ++ toString number ++ " obrigatório (aparece em todas as combinações)") "info"
    | .excluded =>
      showStatus
        { r with excludedNumbers := sortAsc (r.excludedNumbers ++ [number]) }
        ("🔴 Número " ++ toString number ++ " excluído") "warning"
    | .neutral =>
      showStatus r ("⚪ Número " ++ toString number ++ " neutro") "info"

/-- The write to the model made by `updateDisplay()`: `fixedNumbers` becomes the
sorted concatenation of the selected and the mandatory numbers. The rest of the
method writes to the page only. -/
def updateDisplay (s : LotoScopeWeb) : LotoScopeWeb :=
  { s with fixedNumbers := sortAsc (s.selectedNumbers ++ s.mandatoryNumbers) }

/-- The successor of a state in the `switch` of `handleNumberClick`. -/
def nextState : NumberState → NumberState
  | .neutral => .selected
  | .selected => .mandatory
  | .mandatory => .excluded
  | .excluded => .neutral

/-- Method `handleNumberClick(number)`. The call of `calculateProbability()`
that ends it sends a request and writes the answer to the page; it changes no
field of the controller. -/
def handleNumberClick (s : LotoScopeWeb) (number : Int) : LotoScopeWeb :=
  let currentState := getNumberState s number
  let newState := nextState currentState
  updateDisplay (setNumberState s number newState)

/-- Method `clearSelection()`. -/
def clearSelection (s : LotoScopeWeb) : LotoScopeWeb :=
  showStatus
    (updateDisplay
      { s with
        selectedNumbers := []
        mandatoryNumbers := []
        excludedNumbers := []
        fixedNumbers := [] })
    "🧹 Seleção limpa (todos os números neutros)" "success"

/-- The controller after a list of clicks, the first of the list first. -/
def clicks (s : LotoScopeWeb) (ns : List Int) : LotoScopeWeb :=
  ns.foldl handleNumberClick s

/-- The state the cycle gives after `k` clicks on a neutral number. -/
def cycleState (k : Nat) : NumberState :=
  match k % 4 with
  | 0 => .neutral
  | 1 => .selected
  | 2 => .mandatory
  | _ => .excluded

/-- The controllers reached from `initial` by clicks on the buttons `1..25` and
by the clear button. -/
inductive Reachable : LotoScopeWeb → Prop where
  | init : Reachable initial
  | click (s : LotoScopeWeb) (n : Int) (hs : Reachable s) (h1 : 1 ≤ n) (h25 : n ≤ 25) :
      Reachable (handleNumberClick s n)
  | clear (s : LotoScopeWeb) (hs : Reachable s) : Reachable (clearSelection s)

/-- The array built by the loop `for (let i = min; i <= max; i++) values.push(i)`
of `updateFilterValue`. -/
def rangeValues (min max : Int) : List Int :=
  (List.range (max + 1 - min).toNat).map (fun (k : Nat) => min + (k : Int))

/-- Method `updateSomaFilter()`. An array is truthy, `null` is not. The centre
`(168 + 202) / 2` is the integer `185`, so `Math.round` leaves both bounds of
the `agressivo` case as they are. -/
def updateSomaFilter (s : LotoScopeWeb) : LotoScopeWeb :=
  let menorQue := s.dynamicFilters.menor_que_ultimo
  let maiorQue := s.dynamicFilters.maior_que_ultimo
  let igualAo := s.dynamicFilters.igual_ao_ultimo
  if menorQue.isSome || maiorQue.isSome || igualAo.isSome then
    let baseMin : Int := 168
    let baseMax : Int := 202
    if s.riskProfile = "conservador" then
      { s with dynamicFilters :=
          { s.dynamicFilters with
            soma_total_min := some (baseMin - 15)
            soma_total_max := some (baseMax + 15) } }
    else if s.riskProfile = "agressivo" then
      let centro : Int := (baseMin + baseMax) / 2
      { s with dynamicFilters :=
          { s.dynamicFilters with
            soma_total_min := some (centro - 10)
            soma_total_max := some (centro + 10) } }
    else
      { s with dynamicFilters :=
          { s.dynamicFilters with
            soma_total_min := some baseMin
            soma_total_max := some baseMax } }
  else s

/-- Method `updateFilterValue(filterId, min, max)`. The three keys of
`filterMap` select the field that is written; any other id writes none. Both
bounds are numbers, so the test `min !== undefined && max !== undefined` holds
and `updateSomaFilter()` always runs. -/
def updateFilterValue (s : LotoScopeWeb) (filterId : String) (min max : Int) : LotoScopeWeb :=
  let values := rangeValues min max
  let s1 :=
    if filterId = "menorQueUltimo" then
      { s with dynamicFilters := { s.dynamicFilters with menor_que_ultimo := some values } }
    else if filterId = "maiorQueUltimo" then
      { s with dynamicFilters := { s.dynamicFilters with maior_que_ultimo := some values } }
    else if filterId = "igualAoUltimo" then
      { s with dynamicFilters := { s.dynamicFilters with igual_ao_ultimo := some values } }
    else s
  updateSomaFilter s1

/-- Method `applySomaTotalRules(somaAtual, profile)`. -/
def applySomaTotalRules (s : LotoScopeWeb) (somaAtual : Int) (profile : String) : LotoScopeWeb :=
  let baseMin := somaAtual - 20
  let baseMax := somaAtual + 20
  if profile = "agressivo" then
    { s with dynamicFilters :=
        { s.dynamicFilters with
          soma_total_min := some (max 120 (baseMin + 10))
          soma_total_max := some (min 300 (baseMax - 10)) } }
  else if profile = "conservador" then
    { s with dynamicFilters :=
        { s.dynamicFilters with
          soma_total_min := some (max 150 (baseMin - 30))
          soma_total_max := some (min 275 (baseMax + 30)) } }
  else
    { s with dynamicFilters :=
        { s.dynamicFilters with
          soma_total_min := some (max 120 baseMin)
          soma_total_max := some (min 300 baseMax) } }

/-- First `switch` of `applyInversionLogic`: the filter `menor_que_ultimo`.
The division of an integer by `2` rounds down, as `Math.floor(v / 2)` does. -/
def applyMenor (s : LotoScopeWeb) (valorAtualMenor : Int) (profile : String) : LotoScopeWeb :=
  if profile = "agressivo" then
    if valorAtualMenor ≤ 7 then updateFilterValue s "menorQueUltimo" 12 15
    else updateFilterValue s "menorQueUltimo" 0 2
  else if profile = "moderado" then
    if valorAtualMenor ≤ 7 then updateFilterValue s "menorQueUltimo" 11 15
    else
      let maxMenor := min 4 (max 2 (valorAtualMenor / 2 - 2))
      updateFilterValue s "menorQueUltimo" 0 maxMenor
  else if profile = "conservador" then
    if valorAtualMenor ≤ 7 then updateFilterValue s "menorQueUltimo" 11 15
    else
      let maxMenor := min 4 (max 2 (valorAtualMenor / 2 - 2))
      updateFilterValue s "menorQueUltimo" 0 maxMenor
  else s

/-- Second `switch` of `applyInversionLogic`: the filter `maior_que_ultimo`. -/
def applyMaior (s : LotoScopeWeb) (valorAtualMaior : Int) (profile : String) : LotoScopeWeb :=
  if profile = "agressivo" then
    if valorAtualMaior ≤ 7 then updateFilterValue s "maiorQueUltimo" 12 15
    else updateFilterValue s "maiorQueUltimo" 0 2
  else if profile = "moderado" then
    if valorAtualMaior ≤ 7 then updateFilterValue s "maiorQueUltimo" 11 15
    else
      let maxMaior := min 4 (max 2 (valorAtualMaior / 2 - 2))
      updateFilterValue s "maiorQueUltimo" 0 maxMaior
  else if profile = "conservador" then
    if valorAtualMaior ≤ 7 then updateFilterValue s "maiorQueUltimo" 11 15
    else
      let maxMaior := min 4 (max 2 (valorAtualMaior / 2 - 2))
      updateFilterValue s "maiorQueUltimo" 0 maxMaior
  else s

/-- Third `switch` of `applyInversionLogic`: the filter `igual_ao_ultimo`. -/
def applyIgual (s : LotoScopeWeb) (valorAtualIgual : Int) (profile : String) : LotoScopeWeb :=
  if profile = "agressivo" then
    if valorAtualIgual ≤ 2 then updateFilterValue s "igualAoUltimo" 4 6
    else updateFilterValue s "igualAoUltimo" 0 2
  else if profile = "moderado" then
    if valorAtualIgual ≤ 3 then updateFilterValue s "igualAoUltimo" 4 6
    else updateFilterValue s "igualAoUltimo" 0 2
  else if profile = "conservador" then
    if valorAtualIgual ≤ 3 then updateFilterValue s "igualAoUltimo" 4 6
    else updateFilterValue s "igualAoUltimo" 0 2
  else s

/-- Method `applyInversionLogic(ultimoConcurso, profile)`: the three switches
in the order of the source, then `applySomaTotalRules`. -/
def applyInversionLogic (s : LotoScopeWeb) (ultimoConcurso : UltimoConcurso)
    (profile : String) : LotoScopeWeb :=
  let s1 := applyMenor s ultimoConcurso.menor_que_ultimo profile
  let s2 := applyMaior s1 ultimoConcurso.maior_que_ultimo profile
  let s3 := applyIgual s2 ultimoConcurso.igual_ao_ultimo profile
  applySomaTotalRules s3 ultimoConcurso.soma_total profile

/-- The invariant of the number picker: the three lists have no repeated
entry, hold numbers of the grid only, are pairwise disjoint, and the grid has
its 25 buttons. -/
structure Inv (s : LotoScopeWeb) : Prop where
  nodupS : s.selectedNumbers.Nodup
  nodupM : s.mandatoryNumbers.Nodup
  nodupE : s.excludedNumbers.Nodup
  rangeS : ∀ x ∈ s.selectedNumbers, 1 ≤ x ∧ x ≤ 25
  rangeM : ∀ x ∈ s.mandatoryNumbers, 1 ≤ x ∧ x ≤ 25
  rangeE : ∀ x ∈ s.excludedNumbers, 1 ≤ x ∧ x ≤ 25
  disjSM : ∀ x ∈ s.selectedNumbers, x ∉ s.mandatoryNumbers
  disjSE : ∀ x ∈ s.selectedNumbers, x ∉ s.excludedNumbers
  disjME : ∀ x ∈ s.mandatoryNumbers, x ∉ s.excludedNumbers
  buttons : s.gridButtons = gridNumbers

/-- A property read from a JSON object: missing (`undefined`), `null`, or a
number. A value passes the test `v !== null && v !== undefined` exactly when it
is a number. -/
inductive JsField where
  | undefined
  | null
  | num (v : Int)
deriving DecidableEq, Repr

/-- The object `data.trend_info.ultimo_concurso_real` of the `/trend-info`
answer, with the five properties that `getUltimoConcursoData` reads. -/
structure UltimoConcursoReal where
  menor_que_ultimo : JsField
  maior_que_ultimo : JsField
  igual_ao_ultimo : JsField
  soma_total : JsField
  concurso : JsField
deriving DecidableEq, Repr

/-- The object `data.trend_info`; `ultimo_concurso_real` is `none` when the
property is missing or falsy. -/
structure TrendInfo where
  ultimo_concurso_real : Option UltimoConcursoReal
deriving DecidableEq, Repr

/-- The body of the `/trend-info` answer; `trend_info` is `none` when the
property is missing or falsy. -/
structure TrendData where
  trend_info : Option TrendInfo
deriving DecidableEq, Repr

/-- The outcome of `fetch(apiBaseUrl + '/trend-info')`: the promise rejects
with an error, or it gives a response with a status and a body; the body is an
error when `response.json()` rejects. -/
inductive TrendFetch where
  | failed (error : String)
  | response (status : Int) (body : Except String TrendData)

/-- The property `response.ok`: the status is in the range 200..299. -/
def responseOk (status : Int) : Bool :=
  decide (200 ≤ status ∧ status ≤ 299)

/-- Method `getUltimoConcursoData()`, as a function of the outcome of the
fetch. A thrown error is `Except.error` with its message. The five tests
`!== null && !== undefined` hold together exactly when the five properties are
numbers, which are then returned as read. -/
def getUltimoConcursoData (r : TrendFetch) : Except String UltimoConcurso :=
  match r with
  | .failed error => .error error
  | .response status body =>
    if responseOk status then
      match body with
      | .error e => .error e
      | .ok data =>
        match data.trend_info.bind (fun t => t.ultimo_concurso_real) with
        | some real =>
          match real.menor_que_ultimo, real.maior_que_ultimo, real.igual_ao_ultimo,
            real.soma_total, real.concurso with
          | .num a, .num b, .num c, .num d, .num e => .ok ⟨a, b, c, d, e⟩
          | _, _, _, _, _ => .error "Dados reais do último concurso incompletos"
        | none => .error "Dados de tendência não disponíveis"
    else .error ("API retornou status " ++ toString status)

/-- Method `applyTrendBasedFilters(profile)`, as a function of the outcome of
the fetch made by `getUltimoConcursoData`. -/
def applyTrendBasedFilters (s : LotoScopeWeb) (r : TrendFetch) (profile : String) :
    LotoScopeWeb :=
  match getUltimoConcursoData r with
  | .ok ultimaConcursoData => applyInversionLogic s ultimaConcursoData profile
  | .error _ =>
    showStatus
      { s with dynamicFilters :=
          { menor_que_ultimo := none
            maior_que_ultimo := none
            igual_ao_ultimo := none
            soma_total_min := none
            soma_total_max := none } }
      "⚠️ Dados reais indisponíveis - usando filtros padrão" "warning"

/-- A value of a property in a request body: `null`, a number, a string or an
array of numbers. -/
inductive JsonValue where
  | null
  | num (n : Int)
  | str (s : String)
  | numbers (l : List Int)
deriving DecidableEq, Repr

/-- A rank filter as a JSON value: the array, or `null`. -/
def rankValue : Option (List Int) → JsonValue
  | some l => .numbers l
  | none => .null

/-- A sum bound as a JSON value: the number, or `null`. -/
def somaValue : Option Int → JsonValue
  | some n => .num n
  | none => .null

/-- The object `this.dynamicFilters` as it is serialised: its five properties
in the order of the constructor. -/
def dynamicFiltersObject (f : DynamicFilters) : List (String × JsonValue) :=
  [("menor_que_ultimo", rankValue f.menor_que_ultimo),
   ("maior_que_ultimo", rankValue f.maior_que_ultimo),
   ("igual_ao_ultimo", rankValue f.igual_ao_ultimo),
   ("soma_total_min", somaValue f.soma_total_min),
   ("soma_total_max", somaValue f.soma_total_max)]

/-- The value of `this.quantity === null ? "" : this.quantity`. -/
def quantityValue : Option Int → JsonValue
  | none => .str ""
  | some q => .num q

/-- The object `requestData` of `generateCombinations()`; `dynamic_filters` is
`none` when the property is not added. -/
structure RequestData where
  fixed_numbers : List Int
  selected_numbers : List Int
  mandatory_numbers : List Int
  excluded_numbers : List Int
  game_size : Int
  quantity : JsonValue
  risk_profile : String
  dynamic_filters : Option (List (String × JsonValue))
deriving DecidableEq, Repr

/-- The value of `Object.values(this.dynamicFilters).some(filter => filter !== null)`. -/
def someFilterSet (f : DynamicFilters) : Bool :=
  f.menor_que_ultimo.isSome || f.maior_que_ultimo.isSome || f.igual_ao_ultimo.isSome
    || f.soma_total_min.isSome || f.soma_total_max.isSome

/-- The object `requestData` that `generateCombinations()` builds and sends as
the body of the request to `/generate-combinations`. -/
def generateCombinationsRequest (s : LotoScopeWeb) : RequestData :=
  let requestData : RequestData :=
    { fixed_numbers := s.fixedNumbers
      selected_numbers := s.selectedNumbers
      mandatory_numbers := s.mandatoryNumbers
      excluded_numbers := s.excludedNumbers
      game_size := s.gameSize
      quantity := quantityValue s.quantity
      risk_profile := s.riskProfile
      dynamic_filters := none }
  if someFilterSet s.dynamicFilters then
    if s.riskProfile = "conservador" then
      { requestData with
        dynamic_filters := some [
          ("menor_que_ultimo", rankValue s.dynamicFilters.menor_que_ultimo),
          ("maior_que_ultimo", rankValue s.dynamicFilters.maior_que_ultimo),
          ("igual_ao_ultimo", rankValue s.dynamicFilters.igual_ao_ultimo)] }
    else
      { requestData with dynamic_filters := some (dynamicFiltersObject s.dynamicFilters) }
  else requestData

/-- What `updateDisplay()` writes to the button `generateBtn`: the property
`disabled` and the property `innerHTML`. -/
structure GenerateBtn where
  disabled : Bool
  innerHTML : String
deriving DecidableEq, Repr

/-- The text that follows `Gerar` in a caption of the generate button: `TODAS`
when `this.quantity === null || this.quantity === 0`, the quantity otherwise.
In the source each of the three captions is written twice, once per case of
this test. -/
def quantityLabel : Option Int → String
  | none => "TODAS"
  | some q => if q = 0 then "TODAS" else toString q

/-- The part of `updateDisplay()` that updates the generate button, as a
function of the model (the button is taken to be in the page). -/
def generateBtn (s : LotoScopeWeb) : GenerateBtn :=
  let totalNumbers := s.selectedNumbers.length + s.mandatoryNumbers.length
  let canGenerate : Bool := decide (totalNumbers ≤ 25)
  if canGenerate = true ∧ totalNumbers > 0 then
    if s.mandatoryNumbers.length > 0 ∧ s.selectedNumbers.length > 0 then
      { disabled := false
        innerHTML := "<i class=\"fas fa-brain\"></i> Gerar " ++ quantityLabel s.quantity ++ " ("
          ++ toString s.mandatoryNumbers.length ++ " obrig. + "
          ++ toString s.selectedNumbers.length ++ " selecc.)" }
    else if s.mandatoryNumbers.length > 0 then
      { disabled := false
        innerHTML := "<i class=\"fas fa-magic\"></i> Gerar " ++ quantityLabel s.quantity ++ " ("
          ++ toString s.mandatoryNumbers.length ++ " obrigatórios)" }
    else
      { disabled := false
        innerHTML := "<i class=\"fas fa-brain\"></i> Gerar " ++ quantityLabel s.quantity ++ " ("
          ++ toString s.selectedNumbers.length ++ " selecionados)" }
  else if totalNumbers = 0 then
    { disabled := false
      innerHTML := "<i class=\"fas fa-magic\"></i> Gerar Combinações Aleatórias" }
  else
    { disabled := true
      innerHTML := "<i class=\"fas fa-exclamation-triangle\"></i> Muitos números selecionados (máx. 25)" }

/-- The mixed caption of the generate button, naming `m` mandatory and `n`
selected numbers, whatever stands for the quantity. -/
def IsMixedCaption (c : String) (m n : Nat) : Prop :=
  ∃ q : String, c = "<i class=\"fas fa-brain\"></i> Gerar " ++ q ++ " ("
    ++ toString m ++ " obrig. + " ++ toString n ++ " selecc.)"

/-- The mandatory-only caption of the generate button, naming `m` mandatory
numbers, whatever stands for the quantity. -/
def IsMandatoryCaption (c : String) (m : Nat) : Prop :=
  ∃ q : String, c = "<i class=\"fas fa-magic\"></i> Gerar " ++ q ++ " ("
    ++ toString m ++ " obrigatórios)"

/-- The selected-only caption of the generate button, naming `n` selected
numbers, whatever stands for the quantity. -/
def IsSelectedCaption (c : String) (n : Nat) : Prop :=
  ∃ q : String, c = "<i class=\"fas fa-brain\"></i> Gerar " ++ q ++ " ("
    ++ toString n ++ " selecionados)"

/-- The text `t` occurs in the text `c`. -/
def Contains (c t : String) : Prop :=
  List.IsInfix t.data c.data

/-- The object `{min, max}` that an analysis gives for a risk profile. -/
structure PerfilRisco where
  min : Int
  max : Int
deriving DecidableEq, Repr

/-- An entry `data.previsoes[campo]`. `perfis_risco` is `none` when the entry
has no such property (or is `null`): the read
`previsao.perfis_risco[selectedProfile]` then throws a TypeError. Otherwise it
is the list of the properties of the object, keyed by the name of the profile. -/
structure Previsao where
  perfis_risco : Option (List (String × PerfilRisco))
deriving DecidableEq, Repr

/-- The payload of the sequential analysis as `applySequentialFilters` reads
it; `previsoes` is `none` when the property is missing or falsy, and otherwise
the list of the properties of the object in the order of `Object.keys`. -/
structure AnaliseData where
  previsoes : Option (List (String × Previsao))
deriving DecidableEq, Repr

/-- The value of `profile || this.riskProfile`: `null` and the empty string
are falsy. -/
def selectedProfile (s : LotoScopeWeb) (profile : Option String) : String :=
  match profile with
  | some p => if p = "" then s.riskProfile else p
  | none => s.riskProfile

/-- The value of `profileNames[selectedProfile]` inside the status text. -/
def profileNames (selectedProfile : String) : String :=
  if selectedProfile = "conservador" then "🛡️ Conservador"
  else if selectedProfile = "moderado" then "📊 Moderado"
  else if selectedProfile = "agressivo" then "🎯 Agressivo"
  else "undefined"

/-- The end of a call that throws: the error, and the controller as the call
left it (what was written to the fields before the throw stays written). -/
structure Thrown where
  error : String
  state : LotoScopeWeb
deriving DecidableEq, Repr

/-- The controller after a call that returned or threw. -/
def controllerAfter : Except Thrown LotoScopeWeb → LotoScopeWeb
  | .ok s => s
  | .error t => t.state

/-- The body of the `forEach` of `applySequentialFilters` for one key `campo`
of `data.previsoes`. The read `previsao.perfis_risco[selectedProfile]` is not
guarded: it throws when the entry has no `perfis_risco`. -/
def applyPrevisao (selectedProfile : String) (s : LotoScopeWeb)
    (entry : String × Previsao) : Except Thrown LotoScopeWeb :=
  match entry.2.perfis_risco with
  | none =>
    .error ⟨"TypeError: Cannot read properties of undefined (reading '"
      ++ selectedProfile ++ "')", s⟩
  | some perfis_risco =>
    match perfis_risco.lookup selectedProfile with
    | some perfil =>
      if entry.1 = "menor_que_ultimo" then
        .ok (updateFilterValue s "menorQueUltimo" perfil.min perfil.max)
      else if entry.1 = "maior_que_ultimo" then
        .ok (updateFilterValue s "maiorQueUltimo" perfil.min perfil.max)
      else if entry.1 = "igual_ao_ultimo" then
        .ok (updateFilterValue s "igualAoUltimo" perfil.min perfil.max)
      else .ok s
    | none => .ok s

/-- The loop `Object.keys(data.previsoes).forEach(...)`: the keys are taken in
order, and a throw of the body ends the loop with the keys that follow left
out. -/
def forEachPrevisao (selectedProfile : String) :
    LotoScopeWeb → List (String × Previsao) → Except Thrown LotoScopeWeb
  | s, [] => .ok s
  | s, entry :: rest =>
    match applyPrevisao selectedProfile s entry with
    | .ok s1 => forEachPrevisao selectedProfile s1 rest
    | .error t => .error t

/-- Method `applySequentialFilters(data, profile)`, with the outcome of the
fetch that `applyTrendBasedFilters` makes when it is called. When the loop
throws, the method ends there: no status is shown. The call of
`calculateProbability()` that ends it changes no field of the controller. -/
def applySequentialFilters (s : LotoScopeWeb) (data : Option AnaliseData)
    (profile : Option String) (trend : TrendFetch) : Except Thrown LotoScopeWeb :=
  let selectedProfile := selectedProfile s profile
  match data.bind (fun d => d.previsoes) with
  | none => .ok (applyTrendBasedFilters s trend selectedProfile)
  | some previsoes =>
    match forEachPrevisao selectedProfile s previsoes with
    | .ok s1 =>
      .ok (showStatus s1
        ("✅ Filtros aplicados - Perfil " ++ profileNames selectedProfile) "success")
    | .error t => .error t

/-- The properties of `perfis_risco` of an entry that carries it. -/
def perfisOf (previsao : Previsao) : List (String × PerfilRisco) :=
  previsao.perfis_risco.getD []

/-- What the body of the `forEach` does to the controller for an entry that
carries `perfis_risco`, so that the read does not throw. -/
def applyEntry (selectedProfile : String) (s : LotoScopeWeb)
    (entry : String × Previsao) : LotoScopeWeb :=
  match (perfisOf entry.2).lookup selectedProfile with
  | some perfil =>
    if entry.1 = "menor_que_ultimo" then
      updateFilterValue s "menorQueUltimo" perfil.min perfil.max
    else if entry.1 = "maior_que_ultimo" then
      updateFilterValue s "maiorQueUltimo" perfil.min perfil.max
    else if entry.1 = "igual_ao_ultimo" then
      updateFilterValue s "igualAoUltimo" perfil.min perfil.max
    else s
  | none => s

/-- The rank filter that belongs to a key of `data.previsoes`. -/
def rankFilterOf (campo : String) (f : DynamicFilters) : Option (List Int) :=
  if campo = "menor_que_ultimo" then f.menor_que_ultimo
  else if campo = "maior_que_ultimo" then f.maior_que_ultimo
  else if campo = "igual_ao_ultimo" then f.igual_ao_ultimo
  else none

/-- The body of the request that `calculateProbability()` sends to
`/calculate-probability`: `dynamic_filters` is always `this.dynamicFilters`. -/
def calculateProbabilityRequest (s : LotoScopeWeb) : RequestData :=
  { selected_numbers := s.selectedNumbers
    mandatory_numbers := s.mandatoryNumbers
    excluded_numbers := s.excludedNumbers
    fixed_numbers := s.fixedNumbers
    game_size := s.gameSize
    quantity := quantityValue s.quantity
    dynamic_filters := some (dynamicFiltersObject s.dynamicFilters)
    risk_profile := s.riskProfile }

/-- An entry of `analise.predicoes_proximas`. Its `probabilidade` is a fraction
and is left out. -/
structure Predicao where
  valor : Int
  ocorrencias : Int
deriving DecidableEq, Repr

/-- A category of the analysis as `formatAnaliseSection` reads it;
`predicoes_proximas` is `none` when the property is missing or falsy. Its
`confianca` and `perfis_risco` are left out. -/
structure Analise where
  valor_atual : JsField
  predicoes_proximas : Option (List Predicao)
deriving DecidableEq, Repr

/-- The text of `${v || 'N/A'}`: `undefined`, `null` and the number 0 are
falsy. -/
def orNA : JsField → String
  | .num v => if v = 0 then "N/A" else toString v
  | .null => "N/A"
  | .undefined => "N/A"

/-- The texts that `formatAnaliseSection` puts in a section: the one of the
span after `Valor Atual:` and, for every prediction, those of `pred-value` and
of `pred-count`. -/
structure AnaliseSection where
  valorAtual : String
  predicoes : List (String × String)
deriving DecidableEq, Repr

/-- Method `formatAnaliseSection(titulo, analise, icon)`, reduced to the texts
of `AnaliseSection`; `none` stands for the empty string returned when the
category or its `predicoes_proximas` is missing. -/
def formatAnaliseSection (analise : Option Analise) : Option AnaliseSection :=
  match analise with
  | none => none
  | some a =>
    match a.predicoes_proximas with
    | none => none
    | some preds =>
      some
        { valorAtual := orNA a.valor_atual
          predicoes := preds.map
            (fun pred => (toString pred.valor, toString pred.ocorrencias ++ " vezes")) }

/-- The test under which `setNumberState(number, state)` leaves through the
`return` of its capacity check: the button exists, the state asked for is
selected or mandatory, and the selected and mandatory lists hold 25 entries or
more once `number` is filtered out. -/
def capacityGuardFires (s : LotoScopeWeb) (number : Int) (state : NumberState) : Bool :=
  decide (number ∈ s.gridButtons) && (state == .selected || state == .mandatory)
    && decide ((without s.selectedNumbers number).length
      + (without s.mandatoryNumbers number).length ≥ 25)

/-- The order kept by the number picker: the three lists are strictly
ascending and `fixedNumbers` is the sorted concatenation of the selected and
the mandatory numbers. -/
structure SortedInv (s : LotoScopeWeb) : Prop where
  sortedS : s.selectedNumbers.Sorted (fun a b => a < b)
  sortedM : s.mandatoryNumbers.Sorted (fun a b => a < b)
  sortedE : s.excludedNumbers.Sorted (fun a b => a < b)
  fixed : s.fixedNumbers = sortAsc (s.selectedNumbers ++ s.mandatoryNumbers)

/-- The sum bounds that `updateSomaFilter` writes for a stored `riskProfile`
are in place. -/
def SomaEstimated (s : LotoScopeWeb) : Prop :=
  s.dynamicFilters.soma_total_min
      = some (if s.riskProfile = "conservador" then 153
              else if s.riskProfile = "agressivo" then 175 else 168)
    ∧ s.dynamicFilters.soma_total_max
      = some (if s.riskProfile = "conservador" then 217
              else if s.riskProfile = "agressivo" then 195 else 202)

/-! ## Filter derivation: how the helpers write `dynamicFilters` -/

theorem updateSomaFilter_menor (s : LotoScopeWeb) :
    (updateSomaFilter s).dynamicFilters.menor_que_ultimo = s.dynamicFilters.menor_que_ultimo := by
  simp only [updateSomaFilter]
  split_ifs <;> rfl

theorem updateSomaFilter_maior (s : LotoScopeWeb) :
    (updateSomaFilter s).dynamicFilters.maior_que_ultimo = s.dynamicFilters.maior_que_ultimo := by
  simp only [updateSomaFilter]
  split_ifs <;> rfl

theorem updateSomaFilter_igual (s : LotoScopeWeb) :
    (updateSomaFilter s).dynamicFilters.igual_ao_ultimo = s.dynamicFilters.igual_ao_ultimo := by
  simp only [updateSomaFilter]
  split_ifs <;> rfl

theorem updateFilterValue_menorQueUltimo (s : LotoScopeWeb) (a b : Int) :
    (updateFilterValue s "menorQueUltimo" a b).dynamicFilters.menor_que_ultimo
        = some (rangeValues a b)
      ∧ (updateFilterValue s "menorQueUltimo" a b).dynamicFilters.maior_que_ultimo
        = s.dynamicFilters.maior_que_ultimo
      ∧ (updateFilterValue s "menorQueUltimo" a b).dynamicFilters.igual_ao_ultimo
        = s.dynamicFilters.igual_ao_ultimo := by
  simp [updateFilterValue, updateSomaFilter_menor, updateSomaFilter_maior, updateSomaFilter_igual]

theorem updateFilterValue_maiorQueUltimo (s : LotoScopeWeb) (a b : Int) :
    (updateFilterValue s "maiorQueUltimo" a b).dynamicFilters.menor_que_ultimo
        = s.dynamicFilters.menor_que_ultimo
      ∧ (updateFilterValue s "maiorQueUltimo" a b).dynamicFilters.maior_que_ultimo
        = some (rangeValues a b)
      ∧ (updateFilterValue s "maiorQueUltimo" a b).dynamicFilters.igual_ao_ultimo
        = s.dynamicFilters.igual_ao_ultimo := by
  simp [updateFilterValue, updateSomaFilter_menor, updateSomaFilter_maior, updateSomaFilter_igual]

theorem updateFilterValue_igualAoUltimo (s : LotoScopeWeb) (a b : Int) :
    (updateFilterValue s "igualAoUltimo" a b).dynamicFilters.menor_que_ultimo
        = s.dynamicFilters.menor_que_ultimo
      ∧ (updateFilterValue s "igualAoUltimo" a b).dynamicFilters.maior_que_ultimo
        = s.dynamicFilters.maior_que_ultimo
      ∧ (updateFilterValue s "igualAoUltimo" a b).dynamicFilters.igual_ao_ultimo
        = some (rangeValues a b) := by
  simp [updateFilterValue, updateSomaFilter_menor, updateSomaFilter_maior, updateSomaFilter_igual]

theorem applySomaTotalRules_rank (s : LotoScopeWeb) (v : Int) (profile : String) :
    (applySomaTotalRules s v profile).dynamicFilters.menor_que_ultimo
        = s.dynamicFilters.menor_que_ultimo
      ∧ (applySomaTotalRules s v profile).dynamicFilters.maior_que_ultimo
        = s.dynamicFilters.maior_que_ultimo
      ∧ (applySomaTotalRules s v profile).dynamicFilters.igual_ao_ultimo
        = s.dynamicFilters.igual_ao_ultimo := by
  simp only [applySomaTotalRules]
  split_ifs <;> exact ⟨rfl, rfl, rfl⟩

theorem applySomaTotalRules_soma (s t : LotoScopeWeb) (v : Int) (profile : String) :
    (applySomaTotalRules s v profile).dynamicFilters.soma_total_min
        = (applySomaTotalRules t v profile).dynamicFilters.soma_total_min
      ∧ (applySomaTotalRules s v profile).dynamicFilters.soma_total_max
        = (applySomaTotalRules t v profile).dynamicFilters.soma_total_max := by
  simp only [applySomaTotalRules]
  split_ifs <;> exact ⟨rfl, rfl⟩

/-- What the first switch leaves in the three rank filters. -/
theorem applyMenor_rank (s : LotoScopeWeb) (v : Int) (profile : String)
    (hp : profile = "agressivo" ∨ profile = "moderado" ∨ profile = "conservador") :
    (applyMenor s v profile).dynamicFilters.menor_que_ultimo
        = some (if profile = "agressivo" then
                  (if v ≤ 7 then rangeValues 12 15 else rangeValues 0 2)
                else if v ≤ 7 then rangeValues 11 15
                else rangeValues 0 (min 4 (max 2 (v / 2 - 2))))
      ∧ (applyMenor s v profile).dynamicFilters.maior_que_ultimo
        = s.dynamicFilters.maior_que_ultimo
      ∧ (applyMenor s v profile).dynamicFilters.igual_ao_ultimo
        = s.dynamicFilters.igual_ao_ultimo := by
  rcases hp with rfl | rfl | rfl <;> by_cases h : v ≤ 7 <;>
    simp [applyMenor, h, updateFilterValue_menorQueUltimo]

/-- What the second switch leaves in the three rank filters. -/
theorem applyMaior_rank (s : LotoScopeWeb) (v : Int) (profile : String)
    (hp : profile = "agressivo" ∨ profile = "moderado" ∨ profile = "conservador") :
    (applyMaior s v profile).dynamicFilters.menor_que_ultimo
        = s.dynamicFilters.menor_que_ultimo
      ∧ (applyMaior s v profile).dynamicFilters.maior_que_ultimo
        = some (if profile = "agressivo" then
                  (if v ≤ 7 then rangeValues 12 15 else rangeValues 0 2)
                else if v ≤ 7 then rangeValues 11 15
                else rangeValues 0 (min 4 (max 2 (v / 2 - 2))))
      ∧ (applyMaior s v profile).dynamicFilters.igual_ao_ultimo
        = s.dynamicFilters.igual_ao_ultimo := by
  rcases hp with rfl | rfl | rfl <;> by_cases h : v ≤ 7 <;>
    simp [applyMaior, h, updateFilterValue_maiorQueUltimo]

/-- What the third switch leaves in the three rank filters. -/
theorem applyIgual_rank (s : LotoScopeWeb) (v : Int) (profile : String)
    (hp : profile = "agressivo" ∨ profile = "moderado" ∨ profile = "conservador") :
    (applyIgual s v profile).dynamicFilters.menor_que_ultimo
        = s.dynamicFilters.menor_que_ultimo
      ∧ (applyIgual s v profile).dynamicFilters.maior_que_ultimo
        = s.dynamicFilters.maior_que_ultimo
      ∧ (applyIgual s v profile).dynamicFilters.igual_ao_ultimo
        = some (if v ≤ (if profile = "agressivo" then 2 else 3) then rangeValues 4 6
                else rangeValues 0 2) := by
  rcases hp with rfl | rfl | rfl <;>
    simp only [applyIgual, if_true, if_false,
      (by decide : ¬ "moderado" = "agressivo"), (by decide : ¬ "conservador" = "agressivo"),
      (by decide : ¬ "conservador" = "moderado")] <;>
    split_ifs <;> simp [updateFilterValue_igualAoUltimo]

/-- The three rank filters after `applyInversionLogic`, for a known profile. -/
theorem applyInversionLogic_rank (s : LotoScopeWeb) (u : UltimoConcurso) (profile : String)
    (hp : profile = "agressivo" ∨ profile = "moderado" ∨ profile = "conservador") :
    (applyInversionLogic s u profile).dynamicFilters.menor_que_ultimo
        = some (if profile = "agressivo" then
                  (if u.menor_que_ultimo ≤ 7 then rangeValues 12 15 else rangeValues 0 2)
                else if u.menor_que_ultimo ≤ 7 then rangeValues 11 15
                else rangeValues 0 (min 4 (max 2 (u.menor_que_ultimo / 2 - 2))))
      ∧ (applyInversionLogic s u profile).dynamicFilters.maior_que_ultimo
        = some (if profile = "agressivo" then
                  (if u.maior_que_ultimo ≤ 7 then rangeValues 12 15 else rangeValues 0 2)
                else if u.maior_que_ultimo ≤ 7 then rangeValues 11 15
                else rangeValues 0 (min 4 (max 2 (u.maior_que_ultimo / 2 - 2))))
      ∧ (applyInversionLogic s u profile).dynamicFilters.igual_ao_ultimo
        = some (if u.igual_ao_ultimo ≤ (if profile = "agressivo" then 2 else 3)
                then rangeValues 4 6 else rangeValues 0 2) := by
  simp only [applyInversionLogic]
  obtain ⟨a1, a2, a3⟩ := applySomaTotalRules_rank
    (applyIgual (applyMaior (applyMenor s u.menor_que_ultimo profile) u.maior_que_ultimo profile)
      u.igual_ao_ultimo profile) u.soma_total profile
  obtain ⟨b1, b2, b3⟩ := applyIgual_rank
    (applyMaior (applyMenor s u.menor_que_ultimo profile) u.maior_que_ultimo profile)
    u.igual_ao_ultimo profile hp
  obtain ⟨c1, c2, c3⟩ := applyMaior_rank (applyMenor s u.menor_que_ultimo profile)
    u.maior_que_ultimo profile hp
  obtain ⟨d1, d2, d3⟩ := applyMenor_rank s u.menor_que_ultimo profile hp
  refine ⟨?_, ?_, ?_⟩
  · rw [a1, b1, c1, d1]
  · rw [a2, b2, c2]
  · rw [a3, b3]

theorem rangeValues_literals :
    rangeValues 12 15 = [12, 13, 14, 15] ∧ rangeValues 11 15 = [11, 12, 13, 14, 15]
      ∧ rangeValues 0 2 = [0, 1, 2] ∧ rangeValues 4 6 = [4, 5, 6]
      ∧ rangeValues 0 3 = [0, 1, 2, 3] ∧ rangeValues 0 4 = [0, 1, 2, 3, 4] := by
  decide

theorem dynamicFilters_ext (a b : DynamicFilters)
    (h1 : a.menor_que_ultimo = b.menor_que_ultimo) (h2 : a.maior_que_ultimo = b.maior_que_ultimo)
    (h3 : a.igual_ao_ultimo = b.igual_ao_ultimo) (h4 : a.soma_total_min = b.soma_total_min)
    (h5 : a.soma_total_max = b.soma_total_max) : a = b := by
  cases a
  cases b
  simp_all

/-- The division used for `Math.floor(v / 2)` is the floor division. -/
theorem div_two_eq_floor (v : Int) : v / 2 = Int.fdiv v 2 :=
  (Int.fdiv_eq_ediv v (by decide)).symm

/-- The list `0..m` of the moderate rule, for the clamped bound `m`. -/
theorem rangeValues_clamped (v : Int) :
    rangeValues 0 (min 4 (max 2 (v / 2 - 2)))
      = (List.range ((min 4 (max 2 (v / 2 - 2))).toNat + 1)).map (fun (k : Nat) => (k : Int)) := by
  have h : min 4 (max 2 (v / 2 - 2)) = 2 ∨ min 4 (max 2 (v / 2 - 2)) = 3
      ∨ min 4 (max 2 (v / 2 - 2)) = 4 := by omega
  rcases h with h | h | h <;> rw [h] <;> decide

/-! ## Claims on the filter derivation -/

/-- C6: the five dynamic filters left by `applyInversionLogic(stats, profile)`,
for a profile among conservador, moderado and agressivo, are the same from any
two controllers: they depend neither on the filters held before nor on the
controller's own `riskProfile`. -/
theorem applyInversionLogic_pure (s t : LotoScopeWeb) (u : UltimoConcurso) (profile : String)
    (hp : profile = "agressivo" ∨ profile = "moderado" ∨ profile = "conservador") :
    (applyInversionLogic s u profile).dynamicFilters
      = (applyInversionLogic t u profile).dynamicFilters := by
  obtain ⟨a1, a2, a3⟩ := applyInversionLogic_rank s u profile hp
  obtain ⟨b1, b2, b3⟩ := applyInversionLogic_rank t u profile hp
  apply dynamicFilters_ext
  · rw [a1, b1]
  · rw [a2, b2]
  · rw [a3, b3]
  · exact (applySomaTotalRules_soma _ _ u.soma_total profile).1
  · exact (applySomaTotalRules_soma _ _ u.soma_total profile).2

/-- Witness of C6: the same statistics under agressivo, from the initial
controller and from a conservador controller that already holds filters. -/
theorem applyInversionLogic_pure_witness :
    ("agressivo" = "agressivo" ∨ "agressivo" = "moderado" ∨ "agressivo" = "conservador")
      ∧ (applyInversionLogic initial ⟨3, 10, 5, 180, 3000⟩ "agressivo").dynamicFilters
        = (applyInversionLogic
            { initial with
              riskProfile := "conservador"
              dynamicFilters := ⟨some [1], none, some [], some 0, some 999⟩ }
            ⟨3, 10, 5, 180, 3000⟩ "agressivo").dynamicFilters :=
  ⟨Or.inl rfl, applyInversionLogic_pure _ _ _ _ (Or.inl rfl)⟩

/-- C7: under agressivo, `menor_que_ultimo` becomes `[12,13,14,15]` when the
prior value is at most 7 and `[0,1,2]` when it is above 7, and
`maior_que_ultimo` follows the same rule on its own prior value. -/
theorem applyInversionLogic_agressivo (s : LotoScopeWeb) (u : UltimoConcurso) :
    (applyInversionLogic s u "agressivo").dynamicFilters.menor_que_ultimo
        = some (if u.menor_que_ultimo ≤ 7 then [12, 13, 14, 15] else [0, 1, 2])
      ∧ (applyInversionLogic s u "agressivo").dynamicFilters.maior_que_ultimo
        = some (if u.maior_que_ultimo ≤ 7 then [12, 13, 14, 15] else [0, 1, 2]) := by
  obtain ⟨a1, a2, -⟩ := applyInversionLogic_rank s u "agressivo" (Or.inl rfl)
  obtain ⟨r1, -, r3, -⟩ := rangeValues_literals
  rw [a1, a2, r1, r3]
  simp

/-- C8: under moderado, `menor_que_ultimo` becomes `[11,12,13,14,15]` when the
prior value `p` is at most 7, and the list `0..m` with
`m = min(4, max(2, floor(p/2) - 2))` when it is above 7; `maior_que_ultimo`
follows the same rule on its own prior value. -/
theorem applyInversionLogic_moderado (s : LotoScopeWeb) (u : UltimoConcurso) :
    (applyInversionLogic s u "moderado").dynamicFilters.menor_que_ultimo
        = some (if u.menor_que_ultimo ≤ 7 then [11, 12, 13, 14, 15]
                else (List.range ((min 4 (max 2 (u.menor_que_ultimo / 2 - 2))).toNat + 1)).map
                  (fun (k : Nat) => (k : Int)))
      ∧ (applyInversionLogic s u "moderado").dynamicFilters.maior_que_ultimo
        = some (if u.maior_que_ultimo ≤ 7 then [11, 12, 13, 14, 15]
                else (List.range ((min 4 (max 2 (u.maior_que_ultimo / 2 - 2))).toNat + 1)).map
                  (fun (k : Nat) => (k : Int))) := by
  obtain ⟨a1, a2, -⟩ := applyInversionLogic_rank s u "moderado" (Or.inr (Or.inl rfl))
  obtain ⟨-, r2, -⟩ := rangeValues_literals
  rw [a1, a2, r2, rangeValues_clamped, rangeValues_clamped]
  simp

/-- C9: the three rank filters produced under conservador are equal to the
three produced under moderado, for every statistics record. -/
theorem applyInversionLogic_conservador_eq_moderado (s : LotoScopeWeb) (u : UltimoConcurso) :
    (applyInversionLogic s u "conservador").dynamicFilters.menor_que_ultimo
        = (applyInversionLogic s u "moderado").dynamicFilters.menor_que_ultimo
      ∧ (applyInversionLogic s u "conservador").dynamicFilters.maior_que_ultimo
        = (applyInversionLogic s u "moderado").dynamicFilters.maior_que_ultimo
      ∧ (applyInversionLogic s u "conservador").dynamicFilters.igual_ao_ultimo
        = (applyInversionLogic s u "moderado").dynamicFilters.igual_ao_ultimo := by
  obtain ⟨a1, a2, a3⟩ := applyInversionLogic_rank s u "conservador" (Or.inr (Or.inr rfl))
  obtain ⟨b1, b2, b3⟩ := applyInversionLogic_rank s u "moderado" (Or.inr (Or.inl rfl))
  rw [a1, a2, a3, b1, b2, b3]
  simp

/-- C10: `igual_ao_ultimo` becomes `[4,5,6]` when the prior value is at or below
the threshold of the profile and `[0,1,2]` otherwise; the threshold is 2 for
agressivo and 3 for moderado and conservador. -/
theorem applyInversionLogic_igual (s : LotoScopeWeb) (u : UltimoConcurso) (profile : String)
    (hp : profile = "agressivo" ∨ profile = "moderado" ∨ profile = "conservador") :
    (applyInversionLogic s u profile).dynamicFilters.igual_ao_ultimo
      = some (if u.igual_ao_ultimo ≤ (if profile = "agressivo" then 2 else 3)
              then [4, 5, 6] else [0, 1, 2]) := by
  obtain ⟨-, -, a3⟩ := applyInversionLogic_rank s u profile hp
  obtain ⟨-, -, r3, r4, -⟩ := rangeValues_literals
  rw [a3, r3, r4]

/-- Witness of C10: prior value 5 under conservador gives `[0,1,2]`. -/
theorem applyInversionLogic_igual_witness :
    ("conservador" = "agressivo" ∨ "conservador" = "moderado" ∨ "conservador" = "conservador")
      ∧ (applyInversionLogic initial ⟨3, 10, 5, 180, 3000⟩ "conservador").dynamicFilters.igual_ao_ultimo
        = some (if (5 : Int) ≤ (if "conservador" = "agressivo" then 2 else 3)
                then [4, 5, 6] else [0, 1, 2]) :=
  ⟨Or.inr (Or.inr rfl),
    applyInversionLogic_igual initial ⟨3, 10, 5, 180, 3000⟩ "conservador" (Or.inr (Or.inr rfl))⟩

/-! ## Number picker: lists -/

theorem mem_without (l : List Int) (n x : Int) : x ∈ without l n ↔ x ∈ l ∧ x ≠ n := by
  simp [without]

theorem without_eq_self (l : List Int) (n : Int) (h : n ∉ l) : without l n = l := by
  simp only [without, List.filter_eq_self]
  intro a ha
  have : a ≠ n := fun e => h (e ▸ ha)
  simpa using this

theorem nodup_without (l : List Int) (n : Int) (h : l.Nodup) : (without l n).Nodup :=
  h.filter _

theorem perm_sortAsc (l : List Int) : (sortAsc l).Perm l :=
  List.perm_insertionSort _ l

theorem mem_sortAsc (l : List Int) (x : Int) : x ∈ sortAsc l ↔ x ∈ l :=
  (perm_sortAsc l).mem_iff

theorem nodup_sortAsc (l : List Int) : (sortAsc l).Nodup ↔ l.Nodup :=
  (perm_sortAsc l).nodup_iff

theorem length_sortAsc (l : List Int) : (sortAsc l).length = l.length :=
  (perm_sortAsc l).length_eq

theorem mem_gridNumbers (x : Int) : x ∈ gridNumbers ↔ 1 ≤ x ∧ x ≤ 25 := by
  simp only [gridNumbers, List.mem_map, List.mem_range]
  constructor
  · rintro ⟨k, hk, rfl⟩
    omega
  · intro h
    refine ⟨(x - 1).toNat, ?_, ?_⟩
    omega
    omega

/-- A list of distinct numbers of the grid has at most 25 entries. -/
theorem length_le_of_nodup_grid (l : List Int) (hn : l.Nodup)
    (hr : ∀ x ∈ l, 1 ≤ x ∧ x ≤ 25) : l.length ≤ 25 := by
  have hsub : l.toFinset ⊆ Finset.Icc (1 : Int) 25 := by
    intro x hx
    rw [List.mem_toFinset] at hx
    rw [Finset.mem_Icc]
    exact hr x hx
  have hcard := Finset.card_le_card hsub
  rw [List.toFinset_card_of_nodup hn, Int.card_Icc] at hcard
  simpa using hcard

/-- Under the invariant, the selected and mandatory numbers other than a grid
number `n` are at most 24: the capacity test of `setNumberState` cannot hold. -/
theorem others_le_24 (s : LotoScopeWeb) (n : Int) (hI : Inv s) (h1 : 1 ≤ n) (h25 : n ≤ 25) :
    (without s.selectedNumbers n).length + (without s.mandatoryNumbers n).length ≤ 24 := by
  have hn : (n :: (without s.selectedNumbers n ++ without s.mandatoryNumbers n)).Nodup := by
    rw [List.nodup_cons, List.nodup_append]
    refine ⟨?_, nodup_without _ _ hI.nodupS, nodup_without _ _ hI.nodupM, ?_⟩
    · simp [mem_without]
    · intro x hx hx2
      rw [mem_without] at hx hx2
      exact hI.disjSM x hx.1 hx2.1
  have hr : ∀ x ∈ n :: (without s.selectedNumbers n ++ without s.mandatoryNumbers n),
      1 ≤ x ∧ x ≤ 25 := by
    intro x hx
    rw [List.mem_cons, List.mem_append, mem_without, mem_without] at hx
    rcases hx with rfl | hx | hx
    · exact ⟨h1, h25⟩
    · exact hI.rangeS x hx.1
    · exact hI.rangeM x hx.1
  have := length_le_of_nodup_grid _ hn hr
  simp only [List.length_cons, List.length_append] at this
  omega

/-! ## Number picker: one click under the invariant -/

/-- Under the invariant a click on a grid number is never rejected: the three
lists after it are the lists without `n`, with `n` put back in the list of its
next state. -/
theorem handleNumberClick_lists (s : LotoScopeWeb) (n : Int) (hI : Inv s)
    (h1 : 1 ≤ n) (h25 : n ≤ 25) :
    (handleNumberClick s n).selectedNumbers
        = (if nextState (getNumberState s n) = .selected
            then sortAsc (without s.selectedNumbers n ++ [n]) else without s.selectedNumbers n)
      ∧ (handleNumberClick s n).mandatoryNumbers
        = (if nextState (getNumberState s n) = .mandatory
            then sortAsc (without s.mandatoryNumbers n ++ [n]) else without s.mandatoryNumbers n)
      ∧ (handleNumberClick s n).excludedNumbers
        = (if nextState (getNumberState s n) = .excluded
            then sortAsc (without s.excludedNumbers n ++ [n]) else without s.excludedNumbers n)
      ∧ (handleNumberClick s n).gridButtons = s.gridButtons := by
  have hb : n ∈ s.gridButtons := by
    rw [hI.buttons, mem_gridNumbers]
    exact ⟨h1, h25⟩
  have hcap := others_le_24 s n hI h1 h25
  have hlt : ¬ (without s.selectedNumbers n).length + (without s.mandatoryNumbers n).length ≥ 25 := by
    omega
  simp only [handleNumberClick, setNumberState, hb, not_true_eq_false, if_false]
  generalize nextState (getNumberState s n) = st
  cases st <;> simp [removeNumber, showStatus, updateDisplay, hlt]

theorem mem_selected_click (s : LotoScopeWeb) (n x : Int) (hI : Inv s)
    (h1 : 1 ≤ n) (h25 : n ≤ 25) :
    x ∈ (handleNumberClick s n).selectedNumbers
      ↔ (x ∈ s.selectedNumbers ∧ x ≠ n)
        ∨ (x = n ∧ nextState (getNumberState s n) = .selected) := by
  rw [(handleNumberClick_lists s n hI h1 h25).1]
  split_ifs with h <;> simp [mem_sortAsc, mem_without, h]

theorem mem_mandatory_click (s : LotoScopeWeb) (n x : Int) (hI : Inv s)
    (h1 : 1 ≤ n) (h25 : n ≤ 25) :
    x ∈ (handleNumberClick s n).mandatoryNumbers
      ↔ (x ∈ s.mandatoryNumbers ∧ x ≠ n)
        ∨ (x = n ∧ nextState (getNumberState s n) = .mandatory) := by
  rw [(handleNumberClick_lists s n hI h1 h25).2.1]
  split_ifs with h <;> simp [mem_sortAsc, mem_without, h]

theorem mem_excluded_click (s : LotoScopeWeb) (n x : Int) (hI : Inv s)
    (h1 : 1 ≤ n) (h25 : n ≤ 25) :
    x ∈ (handleNumberClick s n).excludedNumbers
      ↔ (x ∈ s.excludedNumbers ∧ x ≠ n)
        ∨ (x = n ∧ nextState (getNumberState s n) = .excluded) := by
  rw [(handleNumberClick_lists s n hI h1 h25).2.2.1]
  split_ifs with h <;> simp [mem_sortAsc, mem_without, h]

/-- Under the invariant, a click on `n` moves `n` to its next state. -/
theorem getNumberState_click_self (s : LotoScopeWeb) (n : Int) (hI : Inv s)
    (h1 : 1 ≤ n) (h25 : n ≤ 25) :
    getNumberState (handleNumberClick s n) n = nextState (getNumberState s n) := by
  have hS := mem_selected_click s n n hI h1 h25
  have hM := mem_mandatory_click s n n hI h1 h25
  have hE := mem_excluded_click s n n hI h1 h25
  simp only [ne_eq, not_true_eq_false, and_false, true_and, false_or] at hS hM hE
  rw [getNumberState]
  simp only [hS, hM, hE]
  cases nextState (getNumberState s n) <;> simp

/-- Under the invariant, a click on `n` leaves the state of any other number. -/
theorem getNumberState_click_other (s : LotoScopeWeb) (n m : Int) (hI : Inv s)
    (h1 : 1 ≤ n) (h25 : n ≤ 25) (hne : m ≠ n) :
    getNumberState (handleNumberClick s n) m = getNumberState s m := by
  have hS := mem_selected_click s n m hI h1 h25
  have hM := mem_mandatory_click s n m hI h1 h25
  have hE := mem_excluded_click s n m hI h1 h25
  simp only [ne_eq, hne, not_false_eq_true, and_true, false_and, or_false] at hS hM hE
  simp only [getNumberState, hS, hM, hE]

theorem inv_initial : Inv initial := by
  refine ⟨?_, ?_, ?_, ?_, ?_, ?_, ?_, ?_, ?_, rfl⟩ <;> simp [initial]

theorem inv_clearSelection (s : LotoScopeWeb) (hI : Inv s) : Inv (clearSelection s) := by
  refine ⟨?_, ?_, ?_, ?_, ?_, ?_, ?_, ?_, ?_, ?_⟩ <;>
    simp [clearSelection, showStatus, updateDisplay, hI.buttons]

/-- A click on a grid number keeps the invariant. -/
theorem inv_handleNumberClick (s : LotoScopeWeb) (n : Int) (hI : Inv s)
    (h1 : 1 ≤ n) (h25 : n ≤ 25) : Inv (handleNumberClick s n) := by
  obtain ⟨eS, eM, eE, eB⟩ := handleNumberClick_lists s n hI h1 h25
  have hS := fun x => mem_selected_click s n x hI h1 h25
  have hM := fun x => mem_mandatory_click s n x hI h1 h25
  have hE := fun x => mem_excluded_click s n x hI h1 h25
  have nd : ∀ l : List Int, l.Nodup → (sortAsc (without l n ++ [n])).Nodup := by
    intro l hl
    rw [nodup_sortAsc, List.nodup_append]
    refine ⟨nodup_without l n hl, List.nodup_singleton n, ?_⟩
    intro x hx hx2
    rw [mem_without] at hx
    rw [List.mem_singleton] at hx2
    exact hx.2 hx2
  refine ⟨?_, ?_, ?_, ?_, ?_, ?_, ?_, ?_, ?_, ?_⟩
  · rw [eS]
    split_ifs
    · exact nd _ hI.nodupS
    · exact nodup_without _ _ hI.nodupS
  · rw [eM]
    split_ifs
    · exact nd _ hI.nodupM
    · exact nodup_without _ _ hI.nodupM
  · rw [eE]
    split_ifs
    · exact nd _ hI.nodupE
    · exact nodup_without _ _ hI.nodupE
  · intro x hx
    rcases (hS x).1 hx with h | h
    · exact hI.rangeS x h.1
    · rw [h.1]
      exact ⟨h1, h25⟩
  · intro x hx
    rcases (hM x).1 hx with h | h
    · exact hI.rangeM x h.1
    · rw [h.1]
      exact ⟨h1, h25⟩
  · intro x hx
    rcases (hE x).1 hx with h | h
    · exact hI.rangeE x h.1
    · rw [h.1]
      exact ⟨h1, h25⟩
  · intro x hx hx2
    rcases (hS x).1 hx with h | h <;> rcases (hM x).1 hx2 with g | g
    · exact hI.disjSM x h.1 g.1
    · exact h.2 g.1
    · exact g.2 h.1
    · rw [h.2] at g
      exact absurd g.2 (by decide)
  · intro x hx hx2
    rcases (hS x).1 hx with h | h <;> rcases (hE x).1 hx2 with g | g
    · exact hI.disjSE x h.1 g.1
    · exact h.2 g.1
    · exact g.2 h.1
    · rw [h.2] at g
      exact absurd g.2 (by decide)
  · intro x hx hx2
    rcases (hM x).1 hx with h | h <;> rcases (hE x).1 hx2 with g | g
    · exact hI.disjME x h.1 g.1
    · exact h.2 g.1
    · exact g.2 h.1
    · rw [h.2] at g
      exact absurd g.2 (by decide)
  · rw [eB, hI.buttons]

/-- Every reachable controller satisfies the invariant. -/
theorem inv_of_reachable (s : LotoScopeWeb) (h : Reachable s) : Inv s := by
  induction h with
  | init => exact inv_initial
  | click s n _ h1 h25 ih => exact inv_handleNumberClick s n ih h1 h25
  | clear s _ ih => exact inv_clearSelection s ih

theorem cycleState_succ (k : Nat) : cycleState (k + 1) = nextState (cycleState k) := by
  have h : k % 4 = 0 ∨ k % 4 = 1 ∨ k % 4 = 2 ∨ k % 4 = 3 := by omega
  rcases h with h | h | h | h
  · have h2 : (k + 1) % 4 = 1 := by omega
    simp [cycleState, h, h2, nextState]
  · have h2 : (k + 1) % 4 = 2 := by omega
    simp [cycleState, h, h2, nextState]
  · have h2 : (k + 1) % 4 = 3 := by omega
    simp [cycleState, h, h2, nextState]
  · have h2 : (k + 1) % 4 = 0 := by omega
    simp [cycleState, h, h2, nextState]

/-- After a list of clicks on grid numbers, from a controller that satisfies the
invariant, the state of `n` has advanced once per click on `n`. -/
theorem getNumberState_clicks (ns : List Int) (hns : ∀ m ∈ ns, 1 ≤ m ∧ m ≤ 25) :
    ∀ (s : LotoScopeWeb), Inv s → ∀ n : Int,
      getNumberState (clicks s ns) n = nextState^[ns.count n] (getNumberState s n) := by
  induction ns with
  | nil =>
    intro s _ n
    simp [clicks]
  | cons m ns ih =>
    intro s hI n
    have hm := hns m (List.mem_cons_self m ns)
    have hI2 := inv_handleNumberClick s m hI hm.1 hm.2
    have ih2 := ih (fun x hx => hns x (List.mem_cons_of_mem m hx)) (handleNumberClick s m) hI2 n
    have e : clicks s (m :: ns) = clicks (handleNumberClick s m) ns := rfl
    rw [e, ih2]
    by_cases hmn : m = n
    · subst hmn
      rw [getNumberState_click_self s m hI hm.1 hm.2, List.count_cons_self,
        Function.iterate_succ_apply]
    · rw [getNumberState_click_other s m n hI hm.1 hm.2 (fun e => hmn e.symm),
        List.count_cons_of_ne (fun e => hmn e.symm)]

theorem iterate_nextState_neutral (k : Nat) : nextState^[k] .neutral = cycleState k := by
  induction k with
  | zero => rfl
  | succ k ih => rw [Function.iterate_succ_apply', ih, cycleState_succ]

theorem not_mem_of_neutral (s : LotoScopeWeb) (n : Int) (h : getNumberState s n = .neutral) :
    n ∉ s.selectedNumbers ∧ n ∉ s.mandatoryNumbers ∧ n ∉ s.excludedNumbers := by
  unfold getNumberState at h
  split_ifs at h with a b c
  exact ⟨a, b, c⟩

/-- A click on a neutral number with a grid button, when the selected and
mandatory lists hold 25 entries or more: the guard returns, the three lists
are as before and the status is the capacity warning. -/
theorem handleNumberClick_neutral_full (s : LotoScopeWeb) (n : Int) (hb : n ∈ s.gridButtons)
    (a : n ∉ s.selectedNumbers) (b : n ∉ s.mandatoryNumbers) (c : n ∉ s.excludedNumbers)
    (htot : 25 ≤ s.selectedNumbers.length + s.mandatoryNumbers.length) :
    (handleNumberClick s n).selectedNumbers = s.selectedNumbers
      ∧ (handleNumberClick s n).mandatoryNumbers = s.mandatoryNumbers
      ∧ (handleNumberClick s n).excludedNumbers = s.excludedNumbers
      ∧ (handleNumberClick s n).status = some ⟨capacityMessage, "warning"⟩ := by
  have h : getNumberState s n = .neutral := by simp [getNumberState, a, b, c]
  simp [handleNumberClick, setNumberState, hb, h, nextState, removeNumber, showStatus,
    updateDisplay, without_eq_self _ _ a, without_eq_self _ _ b, without_eq_self _ _ c,
    if_pos htot]

/-! ## Claims on the number picker -/

/-- C1: after any sequence of clicks on numbers 1..25 from the initial
controller, the state of every number n (so of every n in 1..25) is the number
of clicks on n taken mod 4 and read through 0 neutral, 1 selected,
2 mandatory, 3 excluded. -/
theorem getNumberState_clicks_initial (ns : List Int) (hns : ∀ m ∈ ns, 1 ≤ m ∧ m ≤ 25)
    (n : Int) :
    getNumberState (clicks initial ns) n = cycleState (ns.count n) := by
  rw [getNumberState_clicks ns hns initial inv_initial n]
  have h0 : getNumberState initial n = .neutral := by simp [getNumberState, initial]
  rw [h0, iterate_nextState_neutral]

/-- Witness of C1: seven clicks, three of them on 1, leave 1 excluded. -/
theorem getNumberState_clicks_initial_witness :
    (∀ m ∈ [1, 2, 1, 3, 25, 3, 1], (1 : Int) ≤ m ∧ m ≤ 25)
      ∧ getNumberState (clicks initial [1, 2, 1, 3, 25, 3, 1]) 1
        = cycleState (List.count 1 [1, 2, 1, 3, 25, 3, 1])
      ∧ cycleState (List.count (1 : Int) [1, 2, 1, 3, 25, 3, 1]) = .excluded :=
  ⟨by decide, getNumberState_clicks_initial [1, 2, 1, 3, 25, 3, 1] (by decide) 1, by decide⟩

/-- C2: in every reachable controller, one click on a number n of 1..25 moves n
one step along the cycle: neutral becomes selected, selected becomes mandatory,
mandatory becomes excluded, excluded becomes neutral. -/
theorem handleNumberClick_cycle (s : LotoScopeWeb) (hs : Reachable s) (n : Int)
    (h1 : 1 ≤ n) (h25 : n ≤ 25) :
    (getNumberState s n = .neutral → getNumberState (handleNumberClick s n) n = .selected)
      ∧ (getNumberState s n = .selected → getNumberState (handleNumberClick s n) n = .mandatory)
      ∧ (getNumberState s n = .mandatory → getNumberState (handleNumberClick s n) n = .excluded)
      ∧ (getNumberState s n = .excluded → getNumberState (handleNumberClick s n) n = .neutral) := by
  have h := getNumberState_click_self s n (inv_of_reachable s hs) h1 h25
  refine ⟨?_, ?_, ?_, ?_⟩ <;> intro e <;> rw [h, e] <;> rfl

/-- Witness of C2: the controller after one click on 3, clicked on 3 again. -/
theorem handleNumberClick_cycle_witness :
    Reachable (handleNumberClick initial 3) ∧ (1 : Int) ≤ 3 ∧ (3 : Int) ≤ 25
      ∧ getNumberState (handleNumberClick initial 3) 3 = .selected
      ∧ (getNumberState (handleNumberClick initial 3) 3 = .selected →
          getNumberState (handleNumberClick (handleNumberClick initial 3) 3) 3 = .mandatory) :=
  ⟨Reachable.click initial 3 Reachable.init (by decide) (by decide), by decide, by decide,
    by decide,
    (handleNumberClick_cycle (handleNumberClick initial 3)
      (Reachable.click initial 3 Reachable.init (by decide) (by decide)) 3
      (by decide) (by decide)).2.1⟩

/-- C3: in every reachable controller the selected, mandatory and excluded
lists are pairwise disjoint and the selected and mandatory lists hold at most
25 numbers together. -/
theorem reachable_disjoint_capacity (s : LotoScopeWeb) (hs : Reachable s) :
    List.Disjoint s.selectedNumbers s.mandatoryNumbers
      ∧ List.Disjoint s.selectedNumbers s.excludedNumbers
      ∧ List.Disjoint s.mandatoryNumbers s.excludedNumbers
      ∧ s.selectedNumbers.length + s.mandatoryNumbers.length ≤ 25 := by
  have hI := inv_of_reachable s hs
  refine ⟨fun x hx hx2 => hI.disjSM x hx hx2, fun x hx hx2 => hI.disjSE x hx hx2,
    fun x hx hx2 => hI.disjME x hx hx2, ?_⟩
  have hn : (s.selectedNumbers ++ s.mandatoryNumbers).Nodup := by
    rw [List.nodup_append]
    exact ⟨hI.nodupS, hI.nodupM, fun x hx hx2 => hI.disjSM x hx hx2⟩
  have hr : ∀ x ∈ s.selectedNumbers ++ s.mandatoryNumbers, 1 ≤ x ∧ x ≤ 25 := by
    intro x hx
    rcases List.mem_append.1 hx with h | h
    · exact hI.rangeS x h
    · exact hI.rangeM x h
  simpa using length_le_of_nodup_grid _ hn hr

/-- Witness of C3: the controller after a click on 1, the clear button and a
click on 7. -/
theorem reachable_disjoint_capacity_witness :
    Reachable (handleNumberClick (clearSelection (handleNumberClick initial 1)) 7)
      ∧ List.Disjoint
          (handleNumberClick (clearSelection (handleNumberClick initial 1)) 7).selectedNumbers
          (handleNumberClick (clearSelection (handleNumberClick initial 1)) 7).mandatoryNumbers
      ∧ (handleNumberClick (clearSelection (handleNumberClick initial 1)) 7).selectedNumbers.length
          + (handleNumberClick (clearSelection (handleNumberClick initial 1)) 7).mandatoryNumbers.length
          ≤ 25 :=
  have hr : Reachable (handleNumberClick (clearSelection (handleNumberClick initial 1)) 7) :=
    Reachable.click _ 7
      (Reachable.clear _ (Reachable.click initial 1 Reachable.init (by decide) (by decide)))
      (by decide) (by decide)
  ⟨hr, (reachable_disjoint_capacity _ hr).1, (reachable_disjoint_capacity _ hr).2.2.2⟩

set_option maxRecDepth 100000 in
/-- C4, as stated, fails: with all 25 numbers selected (25 clicks from the
initial controller) the count is 25 and number 1 is selected, yet a click on 1
is accepted: 1 leaves the selected list for the mandatory list and the status
is not the capacity warning. -/
theorem capacity_guard_counterexample :
    getNumberState (clicks initial gridNumbers) 1 = .selected
      ∧ (clicks initial gridNumbers).selectedNumbers.length
          + (clicks initial gridNumbers).mandatoryNumbers.length ≥ 25
      ∧ (handleNumberClick (clicks initial gridNumbers) 1).selectedNumbers
          ≠ (clicks initial gridNumbers).selectedNumbers
      ∧ (handleNumberClick (clicks initial gridNumbers) 1).mandatoryNumbers = [1]
      ∧ (handleNumberClick (clicks initial gridNumbers) 1).status ≠ some capacityWarning := by
  decide

/-- C4, amended: the guard counts after n has been taken out of the lists. For
a number n with a grid button that is neutral or selected, the click ends with
the capacity warning exactly when the selected and mandatory lists hold at
least 25 entries other than n. When n is neutral and the two lists hold 25
entries or more, the click is rejected: the three lists are unchanged and the
capacity warning is raised. When n is selected and the entries other than n
are fewer than 25, the click is accepted and n moves to the mandatory list. -/
theorem capacity_guard_after_removal (s : LotoScopeWeb) (n : Int) (hb : n ∈ s.gridButtons)
    (hst : getNumberState s n = .neutral ∨ getNumberState s n = .selected) :
    ((handleNumberClick s n).status = some capacityWarning
        ↔ 25 ≤ (without s.selectedNumbers n).length + (without s.mandatoryNumbers n).length)
      ∧ (getNumberState s n = .neutral →
          25 ≤ s.selectedNumbers.length + s.mandatoryNumbers.length →
          (handleNumberClick s n).selectedNumbers = s.selectedNumbers
            ∧ (handleNumberClick s n).mandatoryNumbers = s.mandatoryNumbers
            ∧ (handleNumberClick s n).excludedNumbers = s.excludedNumbers
            ∧ (handleNumberClick s n).status = some capacityWarning)
      ∧ (getNumberState s n = .selected →
          (without s.selectedNumbers n).length + (without s.mandatoryNumbers n).length < 25 →
          (handleNumberClick s n).selectedNumbers = without s.selectedNumbers n
            ∧ (handleNumberClick s n).mandatoryNumbers
              = sortAsc (without s.mandatoryNumbers n ++ [n])) := by
  have hw : ¬ ("info" = "warning") := by decide
  rcases hst with h | h
  · obtain ⟨a, b, c⟩ := not_mem_of_neutral s n h
    refine ⟨?_, ?_, ?_⟩
    · simp only [handleNumberClick, setNumberState, hb, h, nextState, not_true_eq_false, if_false]
      split_ifs with g
      · simp [removeNumber, showStatus, updateDisplay, capacityWarning] at g ⊢
        exact g
      · simp [removeNumber, showStatus, updateDisplay, capacityWarning, hw] at g ⊢
        exact g
    · intro _ htot
      exact handleNumberClick_neutral_full s n hb a b c htot
    · intro h2
      rw [h] at h2
      exact absurd h2 (by decide)
  · refine ⟨?_, ?_, ?_⟩
    · simp only [handleNumberClick, setNumberState, hb, h, nextState, not_true_eq_false, if_false]
      split_ifs with g
      · simp [removeNumber, showStatus, updateDisplay, capacityWarning] at g ⊢
        exact g
      · simp [removeNumber, showStatus, updateDisplay, capacityWarning, hw] at g ⊢
        exact g
    · intro h2
      rw [h] at h2
      exact absurd h2 (by decide)
    · intro _ hlt
      have g : ¬ (without s.selectedNumbers n).length + (without s.mandatoryNumbers n).length ≥ 25 := by
        omega
      simp [handleNumberClick, setNumberState, hb, h, nextState, removeNumber, showStatus,
        updateDisplay, g]

set_option maxRecDepth 100000 in
/-- Witness of C4, amended: all 25 numbers selected, click on 1. The entries
other than 1 are 24, so the click does not end with the capacity warning and 1
moves to the mandatory list. -/
theorem capacity_guard_after_removal_witness :
    (1 : Int) ∈ (clicks initial gridNumbers).gridButtons
      ∧ getNumberState (clicks initial gridNumbers) 1 = .selected
      ∧ (without (clicks initial gridNumbers).selectedNumbers 1).length
          + (without (clicks initial gridNumbers).mandatoryNumbers 1).length < 25
      ∧ (handleNumberClick (clicks initial gridNumbers) 1).selectedNumbers
          = without (clicks initial gridNumbers).selectedNumbers 1
      ∧ (handleNumberClick (clicks initial gridNumbers) 1).mandatoryNumbers
          = sortAsc (without (clicks initial gridNumbers).mandatoryNumbers 1 ++ [1]) :=
  ⟨by decide, by decide, by decide,
    (capacity_guard_after_removal (clicks initial gridNumbers) 1 (by decide)
      (Or.inr (by decide))).2.2 (by decide) (by decide)⟩

set_option maxRecDepth 100000 in
/-- C5, as stated, fails: with the 25 numbers selected the count is 25 and 26 is
in none of the three lists, but 26 has no grid button, so `setNumberState`
returns at once and the status after the click is not the capacity warning. -/
theorem handleNumberClick_no_button_counterexample :
    (clicks initial gridNumbers).selectedNumbers.length
          + (clicks initial gridNumbers).mandatoryNumbers.length = 25
      ∧ (26 : Int) ∉ (clicks initial gridNumbers).selectedNumbers
      ∧ (26 : Int) ∉ (clicks initial gridNumbers).mandatoryNumbers
      ∧ (26 : Int) ∉ (clicks initial gridNumbers).excludedNumbers
      ∧ (26 : Int) ∉ (clicks initial gridNumbers).gridButtons
      ∧ (handleNumberClick (clicks initial gridNumbers) 26).status
        ≠ some ⟨"⚠️ Máximo de 25 números entre selecionados e obrigatórios", "warning"⟩ := by
  decide

/-- C5, amended: when the selected and mandatory lists already hold 25 entries
and a number n that has a grid button is in none of the three lists, a click
on n leaves the three lists unchanged and sets the status to the capacity
warning, of type warning. This holds in every controller, reachable or not. -/
theorem handleNumberClick_26th_rejected (s : LotoScopeWeb) (n : Int) (hb : n ∈ s.gridButtons)
    (hcount : s.selectedNumbers.length + s.mandatoryNumbers.length = 25)
    (hS : n ∉ s.selectedNumbers) (hM : n ∉ s.mandatoryNumbers) (hE : n ∉ s.excludedNumbers) :
    (handleNumberClick s n).selectedNumbers = s.selectedNumbers
      ∧ (handleNumberClick s n).mandatoryNumbers = s.mandatoryNumbers
      ∧ (handleNumberClick s n).excludedNumbers = s.excludedNumbers
      ∧ (handleNumberClick s n).status
        = some ⟨"⚠️ Máximo de 25 números entre selecionados e obrigatórios", "warning"⟩ :=
  handleNumberClick_neutral_full s n hb hS hM hE (by omega)

/-- Witness of C5: a controller (not reachable by clicks) whose selected list is
1..24 and whose mandatory list is `[1]`, clicked on 25. -/
theorem handleNumberClick_26th_rejected_witness :
    (handleNumberClick
        { initial with
          selectedNumbers := [1, 2, 3, 4, 5, 6, 7, 8, 9, 10, 11, 12, 13, 14, 15, 16, 17, 18,
            19, 20, 21, 22, 23, 24]
          mandatoryNumbers := [1] } 25).selectedNumbers
        = [1, 2, 3, 4, 5, 6, 7, 8, 9, 10, 11, 12, 13, 14, 15, 16, 17, 18, 19, 20, 21, 22, 23, 24]
      ∧ (handleNumberClick
        { initial with
          selectedNumbers := [1, 2, 3, 4, 5, 6, 7, 8, 9, 10, 11, 12, 13, 14, 15, 16, 17, 18,
            19, 20, 21, 22, 23, 24]
          mandatoryNumbers := [1] } 25).status
        = some ⟨"⚠️ Máximo de 25 números entre selecionados e obrigatórios", "warning"⟩ :=
  have h := handleNumberClick_26th_rejected
    { initial with
      selectedNumbers := [1, 2, 3, 4, 5, 6, 7, 8, 9, 10, 11, 12, 13, 14, 15, 16, 17, 18,
        19, 20, 21, 22, 23, 24]
      mandatoryNumbers := [1] } 25 (by decide) (by decide) (by decide) (by decide) (by decide)
  ⟨h.1, h.2.2.2⟩

/-! ## Filter derivation: the array of `updateFilterValue` -/

/-- The closed form `rangeValues` obeys the loop of the source: `min` is pushed
when `min <= max`, and the loop goes on from `min + 1`. -/
theorem rangeValues_loop (a b : Int) :
    rangeValues a b = if a ≤ b then a :: rangeValues (a + 1) b else [] := by
  unfold rangeValues
  split_ifs with h
  · have e : (b + 1 - a).toNat = (b + 1 - (a + 1)).toNat + 1 := by omega
    rw [e, List.range_succ_eq_map]
    simp only [List.map_cons, List.map_map, Nat.cast_zero, add_zero, List.cons.injEq, true_and]
    apply List.map_congr_left
    intro k _
    simp only [Function.comp_apply, Nat.cast_succ]
    omega
  · have e : (b + 1 - a).toNat = 0 := by omega
    rw [e]
    rfl

theorem mem_rangeValues (a b i : Int) : i ∈ rangeValues a b ↔ a ≤ i ∧ i ≤ b := by
  simp only [rangeValues, List.mem_map, List.mem_range]
  constructor
  · rintro ⟨k, hk, rfl⟩
    omega
  · intro h
    exact ⟨(i - a).toNat, by omega, by omega⟩

theorem length_rangeValues (a b : Int) : (rangeValues a b).length = (b + 1 - a).toNat := by
  simp [rangeValues]

theorem sorted_rangeValues (a b : Int) : (rangeValues a b).Sorted (fun x y => x < y) := by
  unfold rangeValues
  rw [List.Sorted, List.pairwise_map]
  refine (List.pairwise_lt_range _).imp ?_
  intro x y hxy
  omega

/-! ## Claims on the sum bounds and on `updateFilterValue` -/

/-- C11: after `applyInversionLogic` with prior sum `s`, the sum bounds are
`max(120, s - 20)` and `min(300, s + 20)` under moderado, and
`max(120, s - 10)` and `min(300, s + 10)` under agressivo. -/
theorem applyInversionLogic_soma_moderado_agressivo (s : LotoScopeWeb) (u : UltimoConcurso) :
    (applyInversionLogic s u "moderado").dynamicFilters.soma_total_min
        = some (max 120 (u.soma_total - 20))
      ∧ (applyInversionLogic s u "moderado").dynamicFilters.soma_total_max
        = some (min 300 (u.soma_total + 20))
      ∧ (applyInversionLogic s u "agressivo").dynamicFilters.soma_total_min
        = some (max 120 (u.soma_total - 10))
      ∧ (applyInversionLogic s u "agressivo").dynamicFilters.soma_total_max
        = some (min 300 (u.soma_total + 10)) := by
  have e1 : u.soma_total - 20 + 10 = u.soma_total - 10 := by omega
  have e2 : u.soma_total + 20 - 10 = u.soma_total + 10 := by omega
  simp [applyInversionLogic, applySomaTotalRules, e1, e2]

/-- C12 at the prior sum 180: under conservador the code leaves the lower bound
150, where the window widened by 30 on each side and clamped to `[120, 300]`
has `max(120, 180 - 50) = 130`. -/
theorem applyInversionLogic_soma_conservador_counterexample :
    (applyInversionLogic initial ⟨3, 10, 5, 180, 3000⟩ "conservador").dynamicFilters.soma_total_min
        = some 150
      ∧ (applyInversionLogic initial ⟨3, 10, 5, 180, 3000⟩ "conservador").dynamicFilters.soma_total_min
        ≠ some (max 120 (180 - 50)) := by
  decide

/-- What the conservador case of `applySomaTotalRules` computes: the base window
widened by 30 on each side and clamped with the literals 150 and 275,
`max(150, s - 50)` and `min(275, s + 50)`. -/
theorem applyInversionLogic_soma_conservador (s : LotoScopeWeb) (u : UltimoConcurso) :
    (applyInversionLogic s u "conservador").dynamicFilters.soma_total_min
        = some (max 150 (u.soma_total - 50))
      ∧ (applyInversionLogic s u "conservador").dynamicFilters.soma_total_max
        = some (min 275 (u.soma_total + 50)) := by
  have e1 : u.soma_total - 20 - 30 = u.soma_total - 50 := by omega
  have e2 : u.soma_total + 20 + 30 = u.soma_total + 50 := by omega
  simp [applyInversionLogic, applySomaTotalRules, e1, e2]

/-- C13: for each of the ids menorQueUltimo, maiorQueUltimo and igualAoUltimo and
all integers min and max, `updateFilterValue(id, min, max)` sets the filter of
that id to a list and not to a pair of bounds: the list is strictly ascending,
holds exactly the integers `i` with `min <= i <= max`, and has
`max - min + 1` entries when `min <= max` and none when `min > max`. -/
theorem updateFilterValue_enumerates (s : LotoScopeWeb) (a b : Int) :
    ∃ values : List Int,
      (updateFilterValue s "menorQueUltimo" a b).dynamicFilters.menor_que_ultimo = some values
        ∧ (updateFilterValue s "maiorQueUltimo" a b).dynamicFilters.maior_que_ultimo = some values
        ∧ (updateFilterValue s "igualAoUltimo" a b).dynamicFilters.igual_ao_ultimo = some values
        ∧ values.Sorted (fun x y => x < y)
        ∧ (∀ i : Int, i ∈ values ↔ a ≤ i ∧ i ≤ b)
        ∧ values.length = (b - a + 1).toNat
        ∧ ((values = []) ↔ b < a) := by
  refine ⟨rangeValues a b, (updateFilterValue_menorQueUltimo s a b).1,
    (updateFilterValue_maiorQueUltimo s a b).2.1, (updateFilterValue_igualAoUltimo s a b).2.2,
    sorted_rangeValues a b, mem_rangeValues a b, ?_, ?_⟩
  · rw [length_rangeValues]
    congr 1
    omega
  · rw [← List.length_eq_zero, length_rangeValues]
    omega

/-! ## Claims on the retrieval of the prior contest -/

/-- The five properties of a record are numbers exactly when the validation of
`getUltimoConcursoData` passes; the record returned holds them as read. -/
theorem validate_real (real : UltimoConcursoReal) (u : UltimoConcurso) :
    (match real.menor_que_ultimo, real.maior_que_ultimo, real.igual_ao_ultimo,
        real.soma_total, real.concurso with
      | .num a, .num b, .num c, .num d, .num e => (Except.ok ⟨a, b, c, d, e⟩ : Except String UltimoConcurso)
      | _, _, _, _, _ => .error "Dados reais do último concurso incompletos") = .ok u
      ↔ real.menor_que_ultimo = .num u.menor_que_ultimo
        ∧ real.maior_que_ultimo = .num u.maior_que_ultimo
        ∧ real.igual_ao_ultimo = .num u.igual_ao_ultimo
        ∧ real.soma_total = .num u.soma_total
        ∧ real.concurso = .num u.concurso := by
  constructor
  · intro h
    split at h
    · rename_i a b c d e h1 h2 h3 h4 h5
      injection h with h
      subst h
      exact ⟨h1, h2, h3, h4, h5⟩
    · exact absurd h (by simp)
  · rintro ⟨h1, h2, h3, h4, h5⟩
    rw [h1, h2, h3, h4, h5]

theorem getUltimoConcursoData_ok_iff (r : TrendFetch) (u : UltimoConcurso) :
    getUltimoConcursoData r = .ok u
      ↔ ∃ status data t real,
          r = .response status (.ok data) ∧ 200 ≤ status ∧ status ≤ 299
            ∧ data.trend_info = some t ∧ t.ultimo_concurso_real = some real
            ∧ real.menor_que_ultimo = .num u.menor_que_ultimo
            ∧ real.maior_que_ultimo = .num u.maior_que_ultimo
            ∧ real.igual_ao_ultimo = .num u.igual_ao_ultimo
            ∧ real.soma_total = .num u.soma_total
            ∧ real.concurso = .num u.concurso := by
  constructor
  · intro h
    cases r with
    | failed e => simp [getUltimoConcursoData] at h
    | response status body =>
      simp only [getUltimoConcursoData] at h
      split_ifs at h with hok
      cases body with
      | error e => simp at h
      | ok data =>
        simp only at h
        cases hti : data.trend_info with
        | none => simp [hti] at h
        | some t =>
          cases hr : t.ultimo_concurso_real with
          | none => simp [hti, hr] at h
          | some real =>
            simp only [hti, hr, Option.some_bind] at h
            have hs : 200 ≤ status ∧ status ≤ 299 := by simpa [responseOk] using hok
            exact ⟨status, data, t, real, rfl, hs.1, hs.2, hti, hr, (validate_real real u).1 h⟩
  · rintro ⟨status, data, t, real, rfl, h1, h2, hti, hr, hv⟩
    have hok : responseOk status = true := by simp [responseOk, h1, h2]
    simp only [getUltimoConcursoData, hok, if_true, hti, hr, Option.some_bind]
    exact (validate_real real u).2 hv

/-- C14: when the prior contest's statistics cannot be obtained (the fetch
fails, the status is not 2xx, or the record is missing or incomplete, so that
`getUltimoConcursoData` throws), then after `applyTrendBasedFilters` the five
dynamic filters are all null, whatever they held before and whatever the
profile, and the status is the warning that defaults are in effect. -/
theorem applyTrendBasedFilters_failure (s : LotoScopeWeb) (r : TrendFetch) (profile : String)
    (e : String) (hfail : getUltimoConcursoData r = .error e) :
    (applyTrendBasedFilters s r profile).dynamicFilters = ⟨none, none, none, none, none⟩
      ∧ (applyTrendBasedFilters s r profile).status
        = some ⟨"⚠️ Dados reais indisponíveis - usando filtros padrão", "warning"⟩ := by
  simp [applyTrendBasedFilters, hfail, showStatus]

/-- Witness of C14: a 200 answer whose record lacks `concurso`, received by a
controller that holds filters from an earlier derivation. -/
theorem applyTrendBasedFilters_failure_witness :
    getUltimoConcursoData
        (.response 200 (.ok ⟨some ⟨some ⟨.num 3, .num 10, .num 5, .num 180, .undefined⟩⟩⟩))
        = .error "Dados reais do último concurso incompletos"
      ∧ (applyTrendBasedFilters
          { initial with dynamicFilters := ⟨some [0, 1, 2], some [12, 13], none, some 170, some 190⟩ }
          (.response 200 (.ok ⟨some ⟨some ⟨.num 3, .num 10, .num 5, .num 180, .undefined⟩⟩⟩))
          "agressivo").dynamicFilters = ⟨none, none, none, none, none⟩ :=
  ⟨rfl,
    (applyTrendBasedFilters_failure
      { initial with dynamicFilters := ⟨some [0, 1, 2], some [12, 13], none, some 170, some 190⟩ }
      (.response 200 (.ok ⟨some ⟨some ⟨.num 3, .num 10, .num 5, .num 180, .undefined⟩⟩⟩))
      "agressivo" "Dados reais do último concurso incompletos" rfl).1⟩

/-- C20: `getUltimoConcursoData` succeeds exactly when the answer is 2xx, its
body has `trend_info.ultimo_concurso_real`, and the five properties
menor_que_ultimo, maior_que_ultimo, igual_ao_ultimo, soma_total and concurso
are neither null nor undefined; the record returned holds those five values as
read. In every other case it throws. A record with the four statistics and no
`concurso` (missing or null) is a failure. -/
theorem getUltimoConcursoData_succeeds_iff (r : TrendFetch) :
    (∀ u : UltimoConcurso, getUltimoConcursoData r = .ok u
        ↔ ∃ status data t real,
            r = .response status (.ok data) ∧ 200 ≤ status ∧ status ≤ 299
              ∧ data.trend_info = some t ∧ t.ultimo_concurso_real = some real
              ∧ real.menor_que_ultimo = .num u.menor_que_ultimo
              ∧ real.maior_que_ultimo = .num u.maior_que_ultimo
              ∧ real.igual_ao_ultimo = .num u.igual_ao_ultimo
              ∧ real.soma_total = .num u.soma_total
              ∧ real.concurso = .num u.concurso)
      ∧ ((∃ e : String, getUltimoConcursoData r = .error e)
        ↔ ¬ ∃ u : UltimoConcurso, getUltimoConcursoData r = .ok u)
      ∧ (∀ (status a b c d : Int), ∃ e : String,
          getUltimoConcursoData
            (.response status (.ok ⟨some ⟨some ⟨.num a, .num b, .num c, .num d, .undefined⟩⟩⟩))
            = .error e)
      ∧ (∀ (status a b c d : Int), ∃ e : String,
          getUltimoConcursoData
            (.response status (.ok ⟨some ⟨some ⟨.num a, .num b, .num c, .num d, .null⟩⟩⟩))
            = .error e) := by
  refine ⟨fun u => getUltimoConcursoData_ok_iff r u, ?_, ?_, ?_⟩
  · cases h : getUltimoConcursoData r with
    | error e => simp
    | ok u => simp
  · intro status a b c d
    by_cases hok : responseOk status = true
    · exact ⟨"Dados reais do último concurso incompletos",
        by simp [getUltimoConcursoData, hok]⟩
    · exact ⟨"API retornou status " ++ toString status, by simp [getUltimoConcursoData, hok]⟩
  · intro status a b c d
    by_cases hok : responseOk status = true
    · exact ⟨"Dados reais do último concurso incompletos",
        by simp [getUltimoConcursoData, hok]⟩
    · exact ⟨"API retornou status " ++ toString status, by simp [getUltimoConcursoData, hok]⟩

/-! ## Claims on the body of the generation request -/

/-- C15: with `riskProfile = 'conservador'` the body built by
`generateCombinations` has no `soma_total_min` and no `soma_total_max`
property, also when the model holds both; and when at least one dynamic filter
is non-null its `dynamic_filters` object has exactly the three keys
menor_que_ultimo, maior_que_ultimo and igual_ao_ultimo, with the model's
values. -/
theorem generateCombinationsRequest_conservador (s : LotoScopeWeb)
    (hp : s.riskProfile = "conservador") :
    (∀ o, (generateCombinationsRequest s).dynamic_filters = some o →
        "soma_total_min" ∉ o.map Prod.fst ∧ "soma_total_max" ∉ o.map Prod.fst)
      ∧ (someFilterSet s.dynamicFilters = true →
          (generateCombinationsRequest s).dynamic_filters = some
            [("menor_que_ultimo", rankValue s.dynamicFilters.menor_que_ultimo),
             ("maior_que_ultimo", rankValue s.dynamicFilters.maior_que_ultimo),
             ("igual_ao_ultimo", rankValue s.dynamicFilters.igual_ao_ultimo)]) := by
  constructor
  · intro o ho
    simp only [generateCombinationsRequest, hp, if_true] at ho
    split_ifs at ho
    injection ho with ho
    subst ho
    simp
  · intro h
    simp [generateCombinationsRequest, hp, h]

/-- Witness of C15: a conservador controller that holds the five filters. -/
theorem generateCombinationsRequest_conservador_witness :
    (generateCombinationsRequest
        { initial with
          riskProfile := "conservador"
          dynamicFilters := ⟨some [0, 1, 2], some [11, 12], none, some 150, some 230⟩ }).dynamic_filters
      = some
          [("menor_que_ultimo", .numbers [0, 1, 2]), ("maior_que_ultimo", .numbers [11, 12]),
           ("igual_ao_ultimo", .null)] :=
  (generateCombinationsRequest_conservador
    { initial with
      riskProfile := "conservador"
      dynamicFilters := ⟨some [0, 1, 2], some [11, 12], none, some 150, some 230⟩ } rfl).2 rfl

/-- C16, as stated, fails: in the initial controller (profile moderado, the five
filters null) the body has no `dynamic_filters` property at all. -/
theorem generateCombinationsRequest_counterexample :
    initial.riskProfile = "moderado"
      ∧ (generateCombinationsRequest initial).dynamic_filters = none
      ∧ (generateCombinationsRequest initial).dynamic_filters
        ≠ some (dynamicFiltersObject initial.dynamicFilters) := by
  decide

/-- C16, amended: with `riskProfile` moderado or agressivo, when at least one of
the five dynamic filters is non-null the body carries a `dynamic_filters`
object with the five properties menor_que_ultimo, maior_que_ultimo,
igual_ao_ultimo, soma_total_min and soma_total_max equal to the model's; when
the five are null the body has no `dynamic_filters` property. -/
theorem generateCombinationsRequest_moderado_agressivo (s : LotoScopeWeb)
    (hp : s.riskProfile = "moderado" ∨ s.riskProfile = "agressivo") :
    (someFilterSet s.dynamicFilters = true →
        (generateCombinationsRequest s).dynamic_filters = some
          [("menor_que_ultimo", rankValue s.dynamicFilters.menor_que_ultimo),
           ("maior_que_ultimo", rankValue s.dynamicFilters.maior_que_ultimo),
           ("igual_ao_ultimo", rankValue s.dynamicFilters.igual_ao_ultimo),
           ("soma_total_min", somaValue s.dynamicFilters.soma_total_min),
           ("soma_total_max", somaValue s.dynamicFilters.soma_total_max)])
      ∧ (s.dynamicFilters = ⟨none, none, none, none, none⟩ →
          (generateCombinationsRequest s).dynamic_filters = none) := by
  have hc : ¬ s.riskProfile = "conservador" := by
    rcases hp with h | h <;> rw [h] <;> decide
  constructor
  · intro h
    simp [generateCombinationsRequest, hc, h, dynamicFiltersObject]
  · intro h
    simp [generateCombinationsRequest, h, someFilterSet]

/-- Witness of C16, amended: an agressivo controller that holds the five
filters. -/
theorem generateCombinationsRequest_moderado_agressivo_witness :
    (generateCombinationsRequest
        { initial with
          riskProfile := "agressivo"
          dynamicFilters := ⟨some [0, 1, 2], some [12, 13], none, some 170, some 190⟩ }).dynamic_filters
      = some
          [("menor_que_ultimo", .numbers [0, 1, 2]), ("maior_que_ultimo", .numbers [12, 13]),
           ("igual_ao_ultimo", .null), ("soma_total_min", .num 170), ("soma_total_max", .num 190)] :=
  (generateCombinationsRequest_moderado_agressivo
    { initial with
      riskProfile := "agressivo"
      dynamicFilters := ⟨some [0, 1, 2], some [12, 13], none, some 170, some 190⟩ }
    (Or.inr rfl)).1 rfl

/-! ## Generate button: texts -/

theorem digitChar_ne_T (n : Nat) : Nat.digitChar n ≠ 'T' := by
  by_cases h : n < 16
  · interval_cases n <;> decide
  · unfold Nat.digitChar
    repeat rw [if_neg (by omega)]
    decide

theorem toDigitsCore_no_T (fuel : Nat) :
    ∀ (n : Nat) (ds : List Char), 'T' ∉ ds → 'T' ∉ Nat.toDigitsCore 10 fuel n ds := by
  induction fuel with
  | zero =>
    intro n ds h
    simpa [Nat.toDigitsCore] using h
  | succ fuel ih =>
    intro n ds h
    have hd : 'T' ∉ Nat.digitChar (n % 10) :: ds := by
      rw [List.mem_cons]
      rintro (e | e)
      · exact digitChar_ne_T _ e.symm
      · exact h e
    simp only [Nat.toDigitsCore]
    split_ifs
    · exact hd
    · exact ih _ _ hd

theorem toString_nat_no_T (n : Nat) : 'T' ∉ (toString n).data := by
  show 'T' ∉ (Nat.toDigits 10 n).asString.data
  exact toDigitsCore_no_T _ _ _ (by simp)

theorem toString_int_no_T (v : Int) : 'T' ∉ (toString v).data := by
  cases v with
  | ofNat m => exact toString_nat_no_T m
  | negSucc m =>
    show 'T' ∉ ("-" ++ toString (Nat.succ m)).data
    rw [String.data_append, List.mem_append]
    rintro (e | e)
    · exact absurd e (by decide)
    · exact toString_nat_no_T _ e

/-- Two texts that end differently are different: if `x ++ a = y ++ b` and `a`
is not longer than `b`, then `a` is a suffix of `b`. -/
theorem suffix_of_append_eq (x y a b : List Char) (h : x ++ a = y ++ b)
    (hlen : a.length ≤ b.length) : a <:+ b :=
  List.suffix_of_suffix_length_le (List.suffix_append x a) (h ▸ List.suffix_append y b) hlen

theorem ends_conflict (c x y a b : String) (h1 : c = x ++ a) (h2 : c = y ++ b)
    (hab : ¬ a.data <:+ b.data) (hba : ¬ b.data <:+ a.data) : False := by
  have e : x.data ++ a.data = y.data ++ b.data := by
    rw [← String.data_append, ← String.data_append, ← h1, ← h2]
  rcases le_total a.data.length b.data.length with hl | hl
  · exact hab (suffix_of_append_eq _ _ _ _ e hl)
  · exact hba (suffix_of_append_eq _ _ _ _ e.symm hl)

theorem not_contains_TODAS (c : String) (h : 'T' ∉ c.data) : ¬ Contains c "TODAS" := by
  intro hc
  exact h (hc.subset (by decide))

theorem contains_append_self (x t : String) : Contains (x ++ t) t := by
  unfold Contains
  rw [String.data_append]
  exact (List.suffix_append _ _).isInfix

theorem contains_append_right (c t y : String) (h : Contains c t) : Contains (c ++ y) t := by
  unfold Contains at h ⊢
  rw [String.data_append]
  exact h.trans (List.prefix_append _ _).isInfix

theorem quantityLabel_todas (q : Option Int) (h : q = none ∨ q = some 0) :
    quantityLabel q = "TODAS" := by
  rcases h with rfl | rfl <;> rfl

theorem quantityLabel_value (v : Int) (h : v ≠ 0) : quantityLabel (some v) = toString v := by
  simp [quantityLabel, h]

theorem quantityLabel_no_T (q : Option Int) (h : ¬ (q = none ∨ q = some 0)) :
    'T' ∉ (quantityLabel q).data := by
  cases q with
  | none => exact absurd (Or.inl rfl) h
  | some v =>
    have hv : v ≠ 0 := fun e => h (Or.inr (by rw [e]))
    rw [quantityLabel_value v hv]
    exact toString_int_no_T v

/-- The caption written by `updateDisplay` when 1 to 25 numbers are chosen. -/
theorem generateBtn_caption (s : LotoScopeWeb)
    (h1 : 1 ≤ s.selectedNumbers.length + s.mandatoryNumbers.length)
    (h25 : s.selectedNumbers.length + s.mandatoryNumbers.length ≤ 25) :
    (generateBtn s).innerHTML =
      if 0 < s.mandatoryNumbers.length ∧ 0 < s.selectedNumbers.length then
        "<i class=\"fas fa-brain\"></i> Gerar " ++ quantityLabel s.quantity ++ " ("
          ++ toString s.mandatoryNumbers.length ++ " obrig. + "
          ++ toString s.selectedNumbers.length ++ " selecc.)"
      else if 0 < s.mandatoryNumbers.length then
        "<i class=\"fas fa-magic\"></i> Gerar " ++ quantityLabel s.quantity ++ " ("
          ++ toString s.mandatoryNumbers.length ++ " obrigatórios)"
      else
        "<i class=\"fas fa-brain\"></i> Gerar " ++ quantityLabel s.quantity ++ " ("
          ++ toString s.selectedNumbers.length ++ " selecionados)" := by
  have hpos : 0 < s.selectedNumbers.length + s.mandatoryNumbers.length := h1
  simp only [generateBtn, decide_eq_true_eq, h25, gt_iff_lt, hpos, and_self, if_true]
  split_ifs <;> rfl

/-! ## Claims on the generate button -/

/-- C17: with `total = selectedNumbers.length + mandatoryNumbers.length`,
`updateDisplay` leaves the generate button enabled exactly when
`total <= 25`: with `total = 0` it is enabled with the random-combinations
caption, with `1 <= total <= 25` it is enabled, and with `total > 25` it is
disabled with the over-capacity caption. -/
theorem generateBtn_enabled_iff (s : LotoScopeWeb) :
    ((generateBtn s).disabled = false
        ↔ s.selectedNumbers.length + s.mandatoryNumbers.length ≤ 25)
      ∧ (s.selectedNumbers.length + s.mandatoryNumbers.length = 0 →
          generateBtn s
            = ⟨false, "<i class=\"fas fa-magic\"></i> Gerar Combinações Aleatórias"⟩)
      ∧ (1 ≤ s.selectedNumbers.length + s.mandatoryNumbers.length →
          s.selectedNumbers.length + s.mandatoryNumbers.length ≤ 25 →
          (generateBtn s).disabled = false)
      ∧ (25 < s.selectedNumbers.length + s.mandatoryNumbers.length →
          generateBtn s
            = ⟨true, "<i class=\"fas fa-exclamation-triangle\"></i> Muitos números selecionados (máx. 25)"⟩) := by
  have hen : 1 ≤ s.selectedNumbers.length + s.mandatoryNumbers.length →
      s.selectedNumbers.length + s.mandatoryNumbers.length ≤ 25 →
      (generateBtn s).disabled = false := by
    intro h1 h25
    have hpos : 0 < s.selectedNumbers.length + s.mandatoryNumbers.length := h1
    simp only [generateBtn, decide_eq_true_eq, h25, gt_iff_lt, hpos, and_self, if_true]
    split_ifs <;> rfl
  have h0 : s.selectedNumbers.length + s.mandatoryNumbers.length = 0 →
      generateBtn s = ⟨false, "<i class=\"fas fa-magic\"></i> Gerar Combinações Aleatórias"⟩ := by
    intro h
    simp [generateBtn, h]
  have hbig : 25 < s.selectedNumbers.length + s.mandatoryNumbers.length →
      generateBtn s = ⟨true,
        "<i class=\"fas fa-exclamation-triangle\"></i> Muitos números selecionados (máx. 25)"⟩ := by
    intro h
    have h25 : ¬ s.selectedNumbers.length + s.mandatoryNumbers.length ≤ 25 := by omega
    have hne : ¬ s.selectedNumbers.length + s.mandatoryNumbers.length = 0 := by omega
    simp only [generateBtn, decide_eq_true_eq, h25, false_and, if_false, hne]
  refine ⟨?_, h0, hen, hbig⟩
  constructor
  · intro hd
    by_contra hc
    rw [hbig (by omega)] at hd
    exact absurd hd (by decide)
  · intro h25
    rcases Nat.eq_zero_or_pos (s.selectedNumbers.length + s.mandatoryNumbers.length) with h | h
    · rw [h0 h]
    · exact hen h h25

/-- Witness of C17: 26 entries in the selected list (a controller that clicks
cannot reach) leave the button disabled with the over-capacity caption. -/
theorem generateBtn_enabled_iff_witness :
    25 < ({ initial with selectedNumbers := 26 :: gridNumbers }).selectedNumbers.length
          + ({ initial with selectedNumbers := 26 :: gridNumbers }).mandatoryNumbers.length
      ∧ generateBtn { initial with selectedNumbers := 26 :: gridNumbers }
        = ⟨true, "<i class=\"fas fa-exclamation-triangle\"></i> Muitos números selecionados (máx. 25)"⟩ :=
  ⟨by decide,
    (generateBtn_enabled_iff { initial with selectedNumbers := 26 :: gridNumbers }).2.2.2
      (by decide)⟩

/-- What the caption of 1 to 25 chosen numbers says of the quantity: it holds
`TODAS` exactly when the quantity is null or 0, and holds the quantity value
otherwise. Stated for any text that holds the label of the quantity and holds
no `T` beside it. -/
theorem quantity_in_caption (q : Option Int) (c : String)
    (hc : Contains c (quantityLabel q))
    (hT : ¬ (q = none ∨ q = some 0) → 'T' ∉ c.data) :
    (Contains c "TODAS" ↔ q = none ∨ q = some 0)
      ∧ (∀ v : Int, q = some v → v ≠ 0 → Contains c (toString v)) := by
  constructor
  · constructor
    · intro h
      by_contra hq
      exact not_contains_TODAS c (hT hq) h
    · intro hq
      rw [← quantityLabel_todas q hq]
      exact hc
  · intro v hv hne
    rw [← quantityLabel_value v hne, ← hv]
    exact hc

/-- C18: with 1 to 25 chosen numbers, the caption set by `updateDisplay` is the
mixed form, naming the mandatory and the selected count, iff both lists are
non-empty; the mandatory-only form, naming the mandatory count, iff only
`mandatoryNumbers` is non-empty; the selected-only form, naming the selected
count, iff only `selectedNumbers` is non-empty. It contains `TODAS` iff the
quantity is null or 0, and otherwise contains the quantity value. -/
theorem generateBtn_caption_form (s : LotoScopeWeb)
    (h1 : 1 ≤ s.selectedNumbers.length + s.mandatoryNumbers.length)
    (h25 : s.selectedNumbers.length + s.mandatoryNumbers.length ≤ 25) :
    (IsMixedCaption (generateBtn s).innerHTML s.mandatoryNumbers.length s.selectedNumbers.length
        ↔ 0 < s.mandatoryNumbers.length ∧ 0 < s.selectedNumbers.length)
      ∧ (IsMandatoryCaption (generateBtn s).innerHTML s.mandatoryNumbers.length
        ↔ 0 < s.mandatoryNumbers.length ∧ s.selectedNumbers.length = 0)
      ∧ (IsSelectedCaption (generateBtn s).innerHTML s.selectedNumbers.length
        ↔ s.mandatoryNumbers.length = 0 ∧ 0 < s.selectedNumbers.length)
      ∧ (Contains (generateBtn s).innerHTML "TODAS"
        ↔ s.quantity = none ∨ s.quantity = some 0)
      ∧ (∀ v : Int, s.quantity = some v → v ≠ 0 →
          Contains (generateBtn s).innerHTML (toString v)) := by
  have a1 : 'T' ∉ String.data "<i class=\"fas fa-brain\"></i> Gerar " := by decide
  have a2 : 'T' ∉ String.data "<i class=\"fas fa-magic\"></i> Gerar " := by decide
  have a3 : 'T' ∉ String.data " (" := by decide
  have a4 : 'T' ∉ String.data " obrig. + " := by decide
  have a5 : 'T' ∉ String.data " selecc.)" := by decide
  have a6 : 'T' ∉ String.data " obrigatórios)" := by decide
  have a7 : 'T' ∉ String.data " selecionados)" := by decide
  have e1 : ¬ String.data " selecc.)" <:+ String.data " obrigatórios)" := by decide
  have e2 : ¬ String.data " obrigatórios)" <:+ String.data " selecc.)" := by decide
  have e3 : ¬ String.data " selecc.)" <:+ String.data " selecionados)" := by decide
  have e4 : ¬ String.data " selecionados)" <:+ String.data " selecc.)" := by decide
  have e5 : ¬ String.data " obrigatórios)" <:+ String.data " selecionados)" := by decide
  have e6 : ¬ String.data " selecionados)" <:+ String.data " obrigatórios)" := by decide
  have hcap := generateBtn_caption s h1 h25
  by_cases hM : 0 < s.mandatoryNumbers.length
  · by_cases hS : 0 < s.selectedNumbers.length
    · rw [if_pos ⟨hM, hS⟩] at hcap
      have hq := quantity_in_caption s.quantity (generateBtn s).innerHTML
        (by
          rw [hcap]
          repeat (first | exact contains_append_self _ _ | apply contains_append_right))
        (by
          intro h
          rw [hcap]
          simp [String.data_append, a1, a3, a4, a5, toString_nat_no_T,
            quantityLabel_no_T s.quantity h])
      refine ⟨⟨fun _ => ⟨hM, hS⟩, fun _ => ⟨quantityLabel s.quantity, hcap⟩⟩, ?_, ?_, hq.1, hq.2⟩
      · constructor
        · rintro ⟨q, h⟩
          exact (ends_conflict _ _ _ _ _ hcap h e1 e2).elim
        · rintro ⟨-, h⟩
          omega
      · constructor
        · rintro ⟨q, h⟩
          exact (ends_conflict _ _ _ _ _ hcap h e3 e4).elim
        · rintro ⟨h, -⟩
          omega
    · rw [if_neg (fun h => hS h.2), if_pos hM] at hcap
      have hq := quantity_in_caption s.quantity (generateBtn s).innerHTML
        (by
          rw [hcap]
          repeat (first | exact contains_append_self _ _ | apply contains_append_right))
        (by
          intro h
          rw [hcap]
          simp [String.data_append, a2, a3, a6, toString_nat_no_T,
            quantityLabel_no_T s.quantity h])
      refine ⟨?_, ⟨fun _ => ⟨hM, by omega⟩, fun _ => ⟨quantityLabel s.quantity, hcap⟩⟩, ?_,
        hq.1, hq.2⟩
      · constructor
        · rintro ⟨q, h⟩
          exact (ends_conflict _ _ _ _ _ hcap h e2 e1).elim
        · rintro ⟨-, h⟩
          exact absurd h hS
      · constructor
        · rintro ⟨q, h⟩
          exact (ends_conflict _ _ _ _ _ hcap h e5 e6).elim
        · rintro ⟨h, -⟩
          omega
  · have hS : 0 < s.selectedNumbers.length := by omega
    rw [if_neg (fun h => hM h.1), if_neg hM] at hcap
    have hq := quantity_in_caption s.quantity (generateBtn s).innerHTML
      (by
        rw [hcap]
        repeat (first | exact contains_append_self _ _ | apply contains_append_right))
      (by
        intro h
        rw [hcap]
        simp [String.data_append, a1, a3, a7, toString_nat_no_T,
          quantityLabel_no_T s.quantity h])
    refine ⟨?_, ?_, ⟨fun _ => ⟨by omega, hS⟩, fun _ => ⟨quantityLabel s.quantity, hcap⟩⟩,
      hq.1, hq.2⟩
    · constructor
      · rintro ⟨q, h⟩
        exact (ends_conflict _ _ _ _ _ hcap h e4 e3).elim
      · rintro ⟨h, -⟩
        exact absurd h hM
    · constructor
      · rintro ⟨q, h⟩
        exact (ends_conflict _ _ _ _ _ hcap h e6 e5).elim
      · rintro ⟨h, -⟩
        exact absurd h hM

/-- Witness of C18: after clicks on 1, 2, 2 and 3 (one mandatory, two selected,
quantity 1) the caption is the mixed form and holds no `TODAS`. -/
theorem generateBtn_caption_form_witness :
    1 ≤ (clicks initial [1, 2, 2, 3]).selectedNumbers.length
          + (clicks initial [1, 2, 2, 3]).mandatoryNumbers.length
      ∧ (clicks initial [1, 2, 2, 3]).selectedNumbers.length
          + (clicks initial [1, 2, 2, 3]).mandatoryNumbers.length ≤ 25
      ∧ (generateBtn (clicks initial [1, 2, 2, 3])).innerHTML
        = "<i class=\"fas fa-brain\"></i> Gerar 1 (1 obrig. + 2 selecc.)"
      ∧ (Contains (generateBtn (clicks initial [1, 2, 2, 3])).innerHTML "TODAS"
        ↔ (clicks initial [1, 2, 2, 3]).quantity = none
          ∨ (clicks initial [1, 2, 2, 3]).quantity = some 0) :=
  ⟨by decide, by decide, by decide,
    (generateBtn_caption_form (clicks initial [1, 2, 2, 3]) (by decide) (by decide)).2.2.2.1⟩

/-! ## Sequential analysis: the loop over `data.previsoes` -/

theorem applyEntry_other (sp : String) (s : LotoScopeWeb) (entry : String × Previsao)
    (campo : String)
    (hc : campo = "menor_que_ultimo" ∨ campo = "maior_que_ultimo" ∨ campo = "igual_ao_ultimo")
    (hne : entry.1 ≠ campo) :
    rankFilterOf campo (applyEntry sp s entry).dynamicFilters
      = rankFilterOf campo s.dynamicFilters := by
  unfold applyEntry
  cases (perfisOf entry.2).lookup sp with
  | none => rfl
  | some perfil =>
    simp only
    split_ifs with h1 h2 h3
    · rcases hc with rfl | rfl | rfl
      · exact absurd h1 hne
      · simp [rankFilterOf, (updateFilterValue_menorQueUltimo s perfil.min perfil.max).2.1]
      · simp [rankFilterOf, (updateFilterValue_menorQueUltimo s perfil.min perfil.max).2.2]
    · rcases hc with rfl | rfl | rfl
      · simp [rankFilterOf, (updateFilterValue_maiorQueUltimo s perfil.min perfil.max).1]
      · exact absurd h2 hne
      · simp [rankFilterOf, (updateFilterValue_maiorQueUltimo s perfil.min perfil.max).2.2]
    · rcases hc with rfl | rfl | rfl
      · simp [rankFilterOf, (updateFilterValue_igualAoUltimo s perfil.min perfil.max).1]
      · simp [rankFilterOf, (updateFilterValue_igualAoUltimo s perfil.min perfil.max).2.1]
      · exact absurd h3 hne
    · rfl

theorem applyEntry_same (sp : String) (s : LotoScopeWeb) (entry : String × Previsao)
    (b : PerfilRisco)
    (hc : entry.1 = "menor_que_ultimo" ∨ entry.1 = "maior_que_ultimo"
      ∨ entry.1 = "igual_ao_ultimo")
    (hb : (perfisOf entry.2).lookup sp = some b) :
    rankFilterOf entry.1 (applyEntry sp s entry).dynamicFilters
      = some (rangeValues b.min b.max) := by
  unfold applyEntry
  rw [hb]
  rcases hc with h | h | h <;> rw [h]
  · simp [rankFilterOf, (updateFilterValue_menorQueUltimo s b.min b.max).1]
  · simp [rankFilterOf, (updateFilterValue_maiorQueUltimo s b.min b.max).2.1]
  · simp [rankFilterOf, (updateFilterValue_igualAoUltimo s b.min b.max).2.2]

theorem foldl_applyEntry_other (sp campo : String)
    (hc : campo = "menor_que_ultimo" ∨ campo = "maior_que_ultimo" ∨ campo = "igual_ao_ultimo")
    (pv : List (String × Previsao)) :
    ∀ s : LotoScopeWeb, (∀ e ∈ pv, e.1 ≠ campo) →
      rankFilterOf campo (pv.foldl (applyEntry sp) s).dynamicFilters
        = rankFilterOf campo s.dynamicFilters := by
  induction pv with
  | nil =>
    intro s _
    rfl
  | cons e pv ih =>
    intro s h
    rw [List.foldl_cons, ih _ (fun x hx => h x (List.mem_cons_of_mem e hx)),
      applyEntry_other sp s e campo hc (h e (List.mem_cons_self e pv))]

/-- The loop sets the filter of a key of `data.previsoes` from the bounds that
the entry of this key gives for the profile. -/
theorem foldl_applyEntry_lookup (sp campo : String)
    (hc : campo = "menor_que_ultimo" ∨ campo = "maior_que_ultimo" ∨ campo = "igual_ao_ultimo")
    (pv : List (String × Previsao)) (p : Previsao) (b : PerfilRisco)
    (hb : (perfisOf p).lookup sp = some b) :
    ∀ s : LotoScopeWeb, (pv.map Prod.fst).Nodup → pv.lookup campo = some p →
      rankFilterOf campo (pv.foldl (applyEntry sp) s).dynamicFilters
        = some (rangeValues b.min b.max) := by
  induction pv with
  | nil =>
    intro s _ h
    simp at h
  | cons e pv ih =>
    intro s hk hl
    rw [List.map_cons, List.nodup_cons] at hk
    rw [List.foldl_cons]
    by_cases he : e.1 = campo
    · have hp : e.2 = p := by
        obtain ⟨k, v⟩ := e
        simp only at he
        subst he
        simpa [List.lookup] using hl
      have hrest : ∀ x ∈ pv, x.1 ≠ campo := by
        intro x hx hxe
        apply hk.1
        rw [he, ← hxe]
        exact List.mem_map_of_mem Prod.fst hx
      rw [foldl_applyEntry_other sp campo hc pv _ hrest, ← he]
      exact applyEntry_same sp s e b (he ▸ hc) (hp ▸ hb)
    · have hl2 : pv.lookup campo = some p := by
        obtain ⟨k, v⟩ := e
        simp only at he
        have hne : (campo == k) = false := by
          simp only [beq_eq_false_iff_ne, ne_eq]
          exact fun h => he h.symm
        simpa [List.lookup, hne] using hl
      exact ih _ hk.2 hl2

/-! ## Sequential analysis: when the loop returns and when it throws -/

theorem applyPrevisao_ok (sp : String) (s : LotoScopeWeb) (entry : String × Previsao)
    (h : entry.2.perfis_risco ≠ none) :
    applyPrevisao sp s entry = .ok (applyEntry sp s entry) := by
  unfold applyPrevisao applyEntry perfisOf
  cases hp : entry.2.perfis_risco with
  | none => exact absurd hp h
  | some l =>
    simp only [Option.getD_some]
    cases l.lookup sp with
    | none => rfl
    | some perfil =>
      simp only
      split_ifs <;> rfl

/-- When every entry of `data.previsoes` carries `perfis_risco`, the loop
returns, and the controller is the one that the bodies leave in turn. -/
theorem forEachPrevisao_ok (sp : String) (pv : List (String × Previsao)) :
    ∀ s : LotoScopeWeb, (∀ e ∈ pv, e.2.perfis_risco ≠ none) →
      forEachPrevisao sp s pv = .ok (pv.foldl (applyEntry sp) s) := by
  induction pv with
  | nil =>
    intro s _
    rfl
  | cons e pv ih =>
    intro s h
    rw [forEachPrevisao, applyPrevisao_ok sp s e (h e (List.mem_cons_self e pv))]
    exact ih _ (fun x hx => h x (List.mem_cons_of_mem e hx))

theorem applySequentialFilters_ok (s : LotoScopeWeb) (pv : List (String × Previsao))
    (profile : Option String) (trend : TrendFetch)
    (hall : ∀ e ∈ pv, e.2.perfis_risco ≠ none) :
    applySequentialFilters s (some ⟨some pv⟩) profile trend
      = .ok (showStatus (pv.foldl (applyEntry (selectedProfile s profile)) s)
          ("✅ Filtros aplicados - Perfil " ++ profileNames (selectedProfile s profile))
          "success") := by
  simp [applySequentialFilters, forEachPrevisao_ok (selectedProfile s profile) pv s hall]

/-- On a payload whose entries all carry `perfis_risco` and whose `previsoes`
gives, for each of menor_que_ultimo, maior_que_ultimo and igual_ao_ultimo,
bounds `{min, max}` for the profile, `applySequentialFilters(data, profile)`
returns, sets each of the three rank filters to the list `min..max` of the
bounds of its own field, and does not consult the prior contest's statistics:
the controller is the same for every outcome of the `/trend-info` fetch. -/
theorem applySequentialFilters_from_payload (s : LotoScopeWeb)
    (pv : List (String × Previsao)) (profile : Option String) (trend : TrendFetch)
    (p1 p2 p3 : Previsao) (l1 l2 l3 : List (String × PerfilRisco)) (b1 b2 b3 : PerfilRisco)
    (hall : ∀ e ∈ pv, e.2.perfis_risco ≠ none)
    (hkeys : (pv.map Prod.fst).Nodup)
    (h1 : pv.lookup "menor_que_ultimo" = some p1) (e1 : p1.perfis_risco = some l1)
    (g1 : l1.lookup (selectedProfile s profile) = some b1)
    (h2 : pv.lookup "maior_que_ultimo" = some p2) (e2 : p2.perfis_risco = some l2)
    (g2 : l2.lookup (selectedProfile s profile) = some b2)
    (h3 : pv.lookup "igual_ao_ultimo" = some p3) (e3 : p3.perfis_risco = some l3)
    (g3 : l3.lookup (selectedProfile s profile) = some b3) :
    ∃ after : LotoScopeWeb,
      (∀ other : TrendFetch,
          applySequentialFilters s (some ⟨some pv⟩) profile other = .ok after)
        ∧ applySequentialFilters s (some ⟨some pv⟩) profile trend = .ok after
        ∧ after.dynamicFilters.menor_que_ultimo = some (rangeValues b1.min b1.max)
        ∧ after.dynamicFilters.maior_que_ultimo = some (rangeValues b2.min b2.max)
        ∧ after.dynamicFilters.igual_ao_ultimo = some (rangeValues b3.min b3.max) := by
  have q1 : (perfisOf p1).lookup (selectedProfile s profile) = some b1 := by
    simpa [perfisOf, e1] using g1
  have q2 : (perfisOf p2).lookup (selectedProfile s profile) = some b2 := by
    simpa [perfisOf, e2] using g2
  have q3 : (perfisOf p3).lookup (selectedProfile s profile) = some b3 := by
    simpa [perfisOf, e3] using g3
  have k1 := foldl_applyEntry_lookup (selectedProfile s profile) "menor_que_ultimo"
    (Or.inl rfl) pv p1 b1 q1 s hkeys h1
  have k2 := foldl_applyEntry_lookup (selectedProfile s profile) "maior_que_ultimo"
    (Or.inr (Or.inl rfl)) pv p2 b2 q2 s hkeys h2
  have k3 := foldl_applyEntry_lookup (selectedProfile s profile) "igual_ao_ultimo"
    (Or.inr (Or.inr rfl)) pv p3 b3 q3 s hkeys h3
  simp only [rankFilterOf, if_true, (by decide : ¬ "maior_que_ultimo" = "menor_que_ultimo"),
    (by decide : ¬ "igual_ao_ultimo" = "menor_que_ultimo"),
    (by decide : ¬ "igual_ao_ultimo" = "maior_que_ultimo"), if_false] at k1 k2 k3
  exact ⟨_, fun other => applySequentialFilters_ok s pv profile other hall,
    applySequentialFilters_ok s pv profile trend hall, by simpa [showStatus] using k1,
    by simpa [showStatus] using k2, by simpa [showStatus] using k3⟩

/-- The loop on a payload whose three entries carry `perfis_risco`: the call
returns and the three rank filters are the lists of the agressivo bounds. -/
theorem applySequentialFilters_returns_example :
    (applySequentialFilters initial
        (some ⟨some
          [("menor_que_ultimo", ⟨some [("conservador", ⟨5, 9⟩), ("agressivo", ⟨7, 8⟩)]⟩),
           ("maior_que_ultimo", ⟨some [("agressivo", ⟨4, 6⟩)]⟩),
           ("igual_ao_ultimo", ⟨some [("agressivo", ⟨1, 2⟩)]⟩)]⟩)
        (some "agressivo") (.failed "offline")).toOption.map (fun s => s.dynamicFilters)
      = some ⟨some [7, 8], some [4, 5, 6], some [1, 2], some 168, some 202⟩ := by
  decide

/-- The loop on a payload whose second entry lacks `perfis_risco`: the first
key is applied, the call throws on the second, and the third key is left
out. -/
theorem applySequentialFilters_partial_example :
    (applySequentialFilters initial
        (some ⟨some
          [("menor_que_ultimo", ⟨some [("agressivo", ⟨7, 8⟩)]⟩),
           ("soma_total", ⟨none⟩),
           ("igual_ao_ultimo", ⟨some [("agressivo", ⟨1, 2⟩)]⟩)]⟩)
        (some "agressivo") (.failed "offline")).toOption = none
      ∧ (controllerAfter (applySequentialFilters initial
        (some ⟨some
          [("menor_que_ultimo", ⟨some [("agressivo", ⟨7, 8⟩)]⟩),
           ("soma_total", ⟨none⟩),
           ("igual_ao_ultimo", ⟨some [("agressivo", ⟨1, 2⟩)]⟩)]⟩)
        (some "agressivo") (.failed "offline"))).dynamicFilters
        = ⟨some [7, 8], none, none, some 168, some 202⟩ := by
  decide

/-! ## Claim on the sequential-analysis path -/

/-- C19 at a payload with an entry that lacks `perfis_risco`: `previsoes` gives
bounds for agressivo on menor_que_ultimo, maior_que_ultimo and igual_ao_ultimo,
and holds a key `soma_total` first whose entry has no `perfis_risco`. The read
of `perfis_risco` throws on the first key, the loop ends, and the three rank
filters stay null, where the bounds of the payload give `[7, 8]`, `[4, 5, 6]`
and `[1, 2]`. -/
theorem applySequentialFilters_throws_rank :
    (applySequentialFilters initial
        (some ⟨some
          [("soma_total", ⟨none⟩),
           ("menor_que_ultimo", ⟨some [("agressivo", ⟨7, 8⟩)]⟩),
           ("maior_que_ultimo", ⟨some [("agressivo", ⟨4, 6⟩)]⟩),
           ("igual_ao_ultimo", ⟨some [("agressivo", ⟨1, 2⟩)]⟩)]⟩)
        (some "agressivo") (.failed "offline")).toOption = none
      ∧ (controllerAfter (applySequentialFilters initial
        (some ⟨some
          [("soma_total", ⟨none⟩),
           ("menor_que_ultimo", ⟨some [("agressivo", ⟨7, 8⟩)]⟩),
           ("maior_que_ultimo", ⟨some [("agressivo", ⟨4, 6⟩)]⟩),
           ("igual_ao_ultimo", ⟨some [("agressivo", ⟨1, 2⟩)]⟩)]⟩)
        (some "agressivo") (.failed "offline"))).dynamicFilters
        = ⟨none, none, none, none, none⟩
      ∧ rangeValues 7 8 = [7, 8] ∧ rangeValues 4 6 = [4, 5, 6] ∧ rangeValues 1 2 = [1, 2] := by
  decide

/-! ## Claims on the shape of the derived filters -/

theorem rangeValues_ne_nil (a b : Int) (h : a ≤ b) : rangeValues a b ≠ [] := by
  intro e
  have hm : a ∈ rangeValues a b := (mem_rangeValues a b a).2 ⟨le_refl a, h⟩
  rw [e] at hm
  exact absurd hm (List.not_mem_nil a)

/-- The list of a rank filter derived from the prior value `v`: it is not empty
and does not hold `v`. -/
theorem inverted_rank (v : Int) (profile : String) :
    (if profile = "agressivo" then
        (if v ≤ 7 then rangeValues 12 15 else rangeValues 0 2)
      else if v ≤ 7 then rangeValues 11 15
      else rangeValues 0 (min 4 (max 2 (v / 2 - 2)))) ≠ []
      ∧ v ∉ (if profile = "agressivo" then
          (if v ≤ 7 then rangeValues 12 15 else rangeValues 0 2)
        else if v ≤ 7 then rangeValues 11 15
        else rangeValues 0 (min 4 (max 2 (v / 2 - 2)))) := by
  split_ifs with h1 h2 h3
  · exact ⟨rangeValues_ne_nil _ _ (by decide), fun h => by
      rw [mem_rangeValues] at h
      omega⟩
  · exact ⟨rangeValues_ne_nil _ _ (by decide), fun h => by
      rw [mem_rangeValues] at h
      omega⟩
  · exact ⟨rangeValues_ne_nil _ _ (by decide), fun h => by
      rw [mem_rangeValues] at h
      omega⟩
  · exact ⟨rangeValues_ne_nil _ _ (by omega), fun h => by
      rw [mem_rangeValues] at h
      omega⟩

theorem inverted_igual (v : Int) (profile : String) :
    (if v ≤ (if profile = "agressivo" then 2 else 3) then rangeValues 4 6
        else rangeValues 0 2) ≠ []
      ∧ v ∉ (if v ≤ (if profile = "agressivo" then 2 else 3) then rangeValues 4 6
          else rangeValues 0 2) := by
  by_cases hp : profile = "agressivo"
  · simp only [hp, if_true]
    split_ifs with h
    · exact ⟨rangeValues_ne_nil _ _ (by decide), fun h => by
        rw [mem_rangeValues] at h
        omega⟩
    · exact ⟨rangeValues_ne_nil _ _ (by decide), fun h => by
        rw [mem_rangeValues] at h
        omega⟩
  · simp only [hp, if_false]
    split_ifs with h
    · exact ⟨rangeValues_ne_nil _ _ (by decide), fun h => by
        rw [mem_rangeValues] at h
        omega⟩
    · exact ⟨rangeValues_ne_nil _ _ (by decide), fun h => by
        rw [mem_rangeValues] at h
        omega⟩

/-- C22: for a prior sum `s` with `120 <= s <= 300` and each of the profiles
conservador, moderado and agressivo, the sum bounds derived by
`applySomaTotalRules` form a non-empty window inside the valid range:
`120 <= soma_total_min <= soma_total_max <= 300`. -/
theorem applySomaTotalRules_window (s : LotoScopeWeb) (somaAtual : Int) (profile : String)
    (h120 : 120 ≤ somaAtual) (h300 : somaAtual ≤ 300)
    (hp : profile = "agressivo" ∨ profile = "moderado" ∨ profile = "conservador") :
    ∃ lo hi : Int,
      (applySomaTotalRules s somaAtual profile).dynamicFilters.soma_total_min = some lo
        ∧ (applySomaTotalRules s somaAtual profile).dynamicFilters.soma_total_max = some hi
        ∧ 120 ≤ lo ∧ lo ≤ hi ∧ hi ≤ 300 := by
  rcases hp with rfl | rfl | rfl
  · exact ⟨max 120 (somaAtual - 20 + 10), min 300 (somaAtual + 20 - 10),
      by simp [applySomaTotalRules], by simp [applySomaTotalRules], by omega, by omega, by omega⟩
  · exact ⟨max 120 (somaAtual - 20), min 300 (somaAtual + 20),
      by simp [applySomaTotalRules], by simp [applySomaTotalRules], by omega, by omega, by omega⟩
  · exact ⟨max 150 (somaAtual - 20 - 30), min 275 (somaAtual + 20 + 30),
      by simp [applySomaTotalRules], by simp [applySomaTotalRules], by omega, by omega, by omega⟩

/-- Witness of C22: prior sum 120 under conservador gives the window
`[150, 170]`. -/
theorem applySomaTotalRules_window_witness :
    ∃ lo hi : Int,
      (applySomaTotalRules initial 120 "conservador").dynamicFilters.soma_total_min = some lo
        ∧ (applySomaTotalRules initial 120 "conservador").dynamicFilters.soma_total_max = some hi
        ∧ 120 ≤ lo ∧ lo ≤ hi ∧ hi ≤ 300 :=
  applySomaTotalRules_window initial 120 "conservador" (by decide) (by decide)
    (Or.inr (Or.inr rfl))

/-- C27: for every statistics record and each of the profiles conservador,
moderado and agressivo, after `applyInversionLogic` each of the three rank
filters is a non-empty list that does not hold the prior contest's own value
of its field. -/
theorem applyInversionLogic_inverts (s : LotoScopeWeb) (u : UltimoConcurso) (profile : String)
    (hp : profile = "agressivo" ∨ profile = "moderado" ∨ profile = "conservador") :
    ∃ menor maior igual : List Int,
      (applyInversionLogic s u profile).dynamicFilters.menor_que_ultimo = some menor
        ∧ (applyInversionLogic s u profile).dynamicFilters.maior_que_ultimo = some maior
        ∧ (applyInversionLogic s u profile).dynamicFilters.igual_ao_ultimo = some igual
        ∧ menor ≠ [] ∧ u.menor_que_ultimo ∉ menor
        ∧ maior ≠ [] ∧ u.maior_que_ultimo ∉ maior
        ∧ igual ≠ [] ∧ u.igual_ao_ultimo ∉ igual := by
  obtain ⟨a1, a2, a3⟩ := applyInversionLogic_rank s u profile hp
  exact ⟨_, _, _, a1, a2, a3, (inverted_rank u.menor_que_ultimo profile).1,
    (inverted_rank u.menor_que_ultimo profile).2, (inverted_rank u.maior_que_ultimo profile).1,
    (inverted_rank u.maior_que_ultimo profile).2, (inverted_igual u.igual_ao_ultimo profile).1,
    (inverted_igual u.igual_ao_ultimo profile).2⟩

/-- Witness of C27: prior values 7, 8 and 3 under moderado give `[11..15]`,
`[0,1,2]` and `[4,5,6]`. -/
theorem applyInversionLogic_inverts_witness :
    ∃ menor maior igual : List Int,
      (applyInversionLogic initial ⟨7, 8, 3, 195, 3000⟩ "moderado").dynamicFilters.menor_que_ultimo
          = some menor
        ∧ (applyInversionLogic initial ⟨7, 8, 3, 195, 3000⟩ "moderado").dynamicFilters.maior_que_ultimo
          = some maior
        ∧ (applyInversionLogic initial ⟨7, 8, 3, 195, 3000⟩ "moderado").dynamicFilters.igual_ao_ultimo
          = some igual
        ∧ menor ≠ [] ∧ (7 : Int) ∉ menor ∧ maior ≠ [] ∧ (8 : Int) ∉ maior
        ∧ igual ≠ [] ∧ (3 : Int) ∉ igual :=
  applyInversionLogic_inverts initial ⟨7, 8, 3, 195, 3000⟩ "moderado" (Or.inr (Or.inl rfl))

/-- C30: for a profile string other than conservador, moderado and agressivo,
`applyInversionLogic` leaves the three rank filters as they were before the
call and sets the sum bounds by the moderado rule, `max(120, s - 20)` and
`min(300, s + 20)` for the prior sum `s`. -/
theorem applyInversionLogic_unknown_profile (s : LotoScopeWeb) (u : UltimoConcurso)
    (profile : String) (ha : profile ≠ "agressivo") (hm : profile ≠ "moderado")
    (hc : profile ≠ "conservador") :
    (applyInversionLogic s u profile).dynamicFilters.menor_que_ultimo
        = s.dynamicFilters.menor_que_ultimo
      ∧ (applyInversionLogic s u profile).dynamicFilters.maior_que_ultimo
        = s.dynamicFilters.maior_que_ultimo
      ∧ (applyInversionLogic s u profile).dynamicFilters.igual_ao_ultimo
        = s.dynamicFilters.igual_ao_ultimo
      ∧ (applyInversionLogic s u profile).dynamicFilters.soma_total_min
        = some (max 120 (u.soma_total - 20))
      ∧ (applyInversionLogic s u profile).dynamicFilters.soma_total_max
        = some (min 300 (u.soma_total + 20)) := by
  simp [applyInversionLogic, applyMenor, applyMaior, applyIgual, applySomaTotalRules, ha, hm, hc]

/-- Witness of C30: the profile string `equilibrado`, on a controller that
holds rank filters. -/
theorem applyInversionLogic_unknown_profile_witness :
    (applyInversionLogic
        { initial with dynamicFilters := ⟨some [0, 1, 2], some [12, 13], none, some 170, some 190⟩ }
        ⟨3, 10, 5, 180, 3000⟩ "equilibrado").dynamicFilters
      = ⟨some [0, 1, 2], some [12, 13], none, some 160, some 200⟩ :=
  have h := applyInversionLogic_unknown_profile
    { initial with dynamicFilters := ⟨some [0, 1, 2], some [12, 13], none, some 170, some 190⟩ }
    ⟨3, 10, 5, 180, 3000⟩ "equilibrado" (by decide) (by decide) (by decide)
  dynamicFilters_ext _ _ h.1 h.2.1 h.2.2.1 h.2.2.2.1 h.2.2.2.2

/-! ## Claim on the nesting of the sum windows -/

/-- The part of the nesting that holds for every prior sum: the moderado
window contains the agressivo window. -/
theorem moderado_contains_agressivo (s : LotoScopeWeb) (somaAtual : Int) :
    ∃ lo hi lo2 hi2 : Int,
      (applySomaTotalRules s somaAtual "moderado").dynamicFilters.soma_total_min = some lo
        ∧ (applySomaTotalRules s somaAtual "moderado").dynamicFilters.soma_total_max = some hi
        ∧ (applySomaTotalRules s somaAtual "agressivo").dynamicFilters.soma_total_min = some lo2
        ∧ (applySomaTotalRules s somaAtual "agressivo").dynamicFilters.soma_total_max = some hi2
        ∧ lo ≤ lo2 ∧ hi2 ≤ hi :=
  ⟨max 120 (somaAtual - 20), min 300 (somaAtual + 20), max 120 (somaAtual - 20 + 10),
    min 300 (somaAtual + 20 - 10), by simp [applySomaTotalRules], by simp [applySomaTotalRules],
    by simp [applySomaTotalRules], by simp [applySomaTotalRules], by omega, by omega⟩

/-- For a prior sum from 170 to 255 the conservador window contains the
moderado window. -/
theorem conservador_contains_moderado (s : LotoScopeWeb) (somaAtual : Int)
    (h1 : 170 ≤ somaAtual) (h2 : somaAtual ≤ 255) :
    ∃ lo hi lo2 hi2 : Int,
      (applySomaTotalRules s somaAtual "conservador").dynamicFilters.soma_total_min = some lo
        ∧ (applySomaTotalRules s somaAtual "conservador").dynamicFilters.soma_total_max = some hi
        ∧ (applySomaTotalRules s somaAtual "moderado").dynamicFilters.soma_total_min = some lo2
        ∧ (applySomaTotalRules s somaAtual "moderado").dynamicFilters.soma_total_max = some hi2
        ∧ lo ≤ lo2 ∧ hi2 ≤ hi :=
  ⟨max 150 (somaAtual - 20 - 30), min 275 (somaAtual + 20 + 30), max 120 (somaAtual - 20),
    min 300 (somaAtual + 20), by simp [applySomaTotalRules], by simp [applySomaTotalRules],
    by simp [applySomaTotalRules], by simp [applySomaTotalRules], by omega, by omega⟩

/-- C21 at the prior sums 150 and 260: the conservador window does not contain
the moderado window. At 150 the moderado window is `[130, 170]` and the
conservador window `[150, 200]`, so 130 is left out; at 260 the moderado window
is `[240, 280]` and the conservador window `[210, 275]`, so 280 is left out. -/
theorem soma_window_nesting_fails :
    (applySomaTotalRules initial 150 "moderado").dynamicFilters.soma_total_min = some 130
      ∧ (applySomaTotalRules initial 150 "moderado").dynamicFilters.soma_total_max = some 170
      ∧ (applySomaTotalRules initial 150 "conservador").dynamicFilters.soma_total_min = some 150
      ∧ (applySomaTotalRules initial 150 "conservador").dynamicFilters.soma_total_max = some 200
      ∧ (applySomaTotalRules initial 260 "moderado").dynamicFilters.soma_total_min = some 240
      ∧ (applySomaTotalRules initial 260 "moderado").dynamicFilters.soma_total_max = some 280
      ∧ (applySomaTotalRules initial 260 "conservador").dynamicFilters.soma_total_min = some 210
      ∧ (applySomaTotalRules initial 260 "conservador").dynamicFilters.soma_total_max = some 275 := by
  decide

/-! ## Claims on the probability request and on the analysis section -/

/-- C29: for every controller and every `riskProfile`, conservador included,
the body built by `calculateProbability` has a `dynamic_filters` property with
the five properties of the model's `dynamicFilters`, sum bounds included, also
when the five are null; for the same controller `generateCombinations` omits
the property when the five are null and, for conservador, sends the three rank
filters without the sum bounds. -/
theorem calculateProbabilityRequest_untrimmed (s : LotoScopeWeb) :
    (calculateProbabilityRequest s).dynamic_filters = some
        [("menor_que_ultimo", rankValue s.dynamicFilters.menor_que_ultimo),
         ("maior_que_ultimo", rankValue s.dynamicFilters.maior_que_ultimo),
         ("igual_ao_ultimo", rankValue s.dynamicFilters.igual_ao_ultimo),
         ("soma_total_min", somaValue s.dynamicFilters.soma_total_min),
         ("soma_total_max", somaValue s.dynamicFilters.soma_total_max)]
      ∧ (s.dynamicFilters = ⟨none, none, none, none, none⟩ →
          (generateCombinationsRequest s).dynamic_filters = none)
      ∧ (s.riskProfile = "conservador" → someFilterSet s.dynamicFilters = true →
          (generateCombinationsRequest s).dynamic_filters = some
            [("menor_que_ultimo", rankValue s.dynamicFilters.menor_que_ultimo),
             ("maior_que_ultimo", rankValue s.dynamicFilters.maior_que_ultimo),
             ("igual_ao_ultimo", rankValue s.dynamicFilters.igual_ao_ultimo)]) := by
  refine ⟨rfl, ?_, ?_⟩
  · intro h
    simp [generateCombinationsRequest, h, someFilterSet]
  · intro hp h
    simp [generateCombinationsRequest, hp, h]

/-- Witness of C29: a conservador controller that holds the five filters; the
probability request carries the five, the generation request three. -/
theorem calculateProbabilityRequest_untrimmed_witness :
    (calculateProbabilityRequest
        { initial with
          riskProfile := "conservador"
          dynamicFilters := ⟨some [0, 1, 2], some [11, 12], none, some 150, some 230⟩ }).dynamic_filters
        = some
          [("menor_que_ultimo", .numbers [0, 1, 2]), ("maior_que_ultimo", .numbers [11, 12]),
           ("igual_ao_ultimo", .null), ("soma_total_min", .num 150), ("soma_total_max", .num 230)]
      ∧ (generateCombinationsRequest
        { initial with
          riskProfile := "conservador"
          dynamicFilters := ⟨some [0, 1, 2], some [11, 12], none, some 150, some 230⟩ }).dynamic_filters
        = some
          [("menor_que_ultimo", .numbers [0, 1, 2]), ("maior_que_ultimo", .numbers [11, 12]),
           ("igual_ao_ultimo", .null)] :=
  have h := calculateProbabilityRequest_untrimmed
    { initial with
      riskProfile := "conservador"
      dynamicFilters := ⟨some [0, 1, 2], some [11, 12], none, some 150, some 230⟩ }
  ⟨h.1, h.2.2 rfl rfl⟩

/-- For a current value other than 0 the section shows its decimal text. -/
theorem formatAnaliseSection_nonzero (v : Int) (hv : v ≠ 0) (preds : List Predicao) :
    (formatAnaliseSection (some ⟨.num v, some preds⟩)).map (fun sec => sec.valorAtual)
      = some (toString v) := by
  simp [formatAnaliseSection, orNA, hv]

/-- C23 at the current value 0: for a category with a `predicoes_proximas`
list and `valor_atual = 0`, the text rendered after `Valor Atual:` is `N/A`,
not the decimal text `0`. -/
theorem formatAnaliseSection_zero :
    (formatAnaliseSection (some ⟨.num 0, some [⟨3, 12⟩]⟩)).map (fun sec => sec.valorAtual)
        = some "N/A"
      ∧ (formatAnaliseSection (some ⟨.num 0, some [⟨3, 12⟩]⟩)).map (fun sec => sec.valorAtual)
        ≠ some (toString (0 : Int)) := by
  decide

/-! ## Sequential analysis: the sum bounds -/

theorem updateSomaFilter_riskProfile (s : LotoScopeWeb) :
    (updateSomaFilter s).riskProfile = s.riskProfile := by
  simp only [updateSomaFilter]
  split_ifs <;> rfl

theorem updateSomaFilter_estimated (s : LotoScopeWeb)
    (h : (s.dynamicFilters.menor_que_ultimo.isSome || s.dynamicFilters.maior_que_ultimo.isSome
      || s.dynamicFilters.igual_ao_ultimo.isSome) = true) :
    SomaEstimated (updateSomaFilter s) := by
  unfold SomaEstimated
  rw [updateSomaFilter_riskProfile]
  simp only [updateSomaFilter, h, if_true]
  split_ifs <;> exact ⟨by rfl, by rfl⟩

theorem updateFilterValue_riskProfile (s : LotoScopeWeb) (filterId : String) (a b : Int) :
    (updateFilterValue s filterId a b).riskProfile = s.riskProfile := by
  simp only [updateFilterValue, updateSomaFilter_riskProfile]
  split_ifs <;> rfl

theorem updateFilterValue_estimated (s : LotoScopeWeb) (filterId : String) (a b : Int)
    (hid : filterId = "menorQueUltimo" ∨ filterId = "maiorQueUltimo"
      ∨ filterId = "igualAoUltimo") :
    SomaEstimated (updateFilterValue s filterId a b) := by
  rcases hid with rfl | rfl | rfl
  · exact updateSomaFilter_estimated _ (by simp)
  · exact updateSomaFilter_estimated _ (by simp)
  · exact updateSomaFilter_estimated _ (by simp)

theorem applyEntry_riskProfile (sp : String) (s : LotoScopeWeb) (e : String × Previsao) :
    (applyEntry sp s e).riskProfile = s.riskProfile := by
  unfold applyEntry
  cases (perfisOf e.2).lookup sp with
  | none => rfl
  | some perfil =>
    simp only
    split_ifs <;> first | rfl | exact updateFilterValue_riskProfile _ _ _ _

theorem applyEntry_keeps (sp : String) (s : LotoScopeWeb) (e : String × Previsao)
    (h : SomaEstimated s) : SomaEstimated (applyEntry sp s e) := by
  unfold applyEntry
  cases (perfisOf e.2).lookup sp with
  | none => exact h
  | some perfil =>
    simp only
    split_ifs
    · exact updateFilterValue_estimated _ _ _ _ (Or.inl rfl)
    · exact updateFilterValue_estimated _ _ _ _ (Or.inr (Or.inl rfl))
    · exact updateFilterValue_estimated _ _ _ _ (Or.inr (Or.inr rfl))
    · exact h

theorem applyEntry_sets (sp : String) (s : LotoScopeWeb) (e : String × Previsao)
    (b : PerfilRisco)
    (hk : e.1 = "menor_que_ultimo" ∨ e.1 = "maior_que_ultimo" ∨ e.1 = "igual_ao_ultimo")
    (hb : (perfisOf e.2).lookup sp = some b) : SomaEstimated (applyEntry sp s e) := by
  unfold applyEntry
  rw [hb]
  simp only
  split_ifs with h1 h2 h3
  · exact updateFilterValue_estimated _ _ _ _ (Or.inl rfl)
  · exact updateFilterValue_estimated _ _ _ _ (Or.inr (Or.inl rfl))
  · exact updateFilterValue_estimated _ _ _ _ (Or.inr (Or.inr rfl))
  · rcases hk with h | h | h
    · exact absurd h h1
    · exact absurd h h2
    · exact absurd h h3

theorem foldl_applyEntry_riskProfile (sp : String) (pv : List (String × Previsao)) :
    ∀ s : LotoScopeWeb, (pv.foldl (applyEntry sp) s).riskProfile = s.riskProfile := by
  induction pv with
  | nil =>
    intro s
    rfl
  | cons e pv ih =>
    intro s
    rw [List.foldl_cons, ih, applyEntry_riskProfile]

theorem foldl_applyEntry_keeps (sp : String) (pv : List (String × Previsao)) :
    ∀ s : LotoScopeWeb, SomaEstimated s → SomaEstimated (pv.foldl (applyEntry sp) s) := by
  induction pv with
  | nil =>
    intro s h
    exact h
  | cons e pv ih =>
    intro s h
    rw [List.foldl_cons]
    exact ih _ (applyEntry_keeps sp s e h)

/-- Once an entry of a rank field with bounds for the profile is met, the sum
bounds are those of `updateSomaFilter` until the end of the loop. -/
theorem foldl_applyEntry_estimated (sp : String) (pv : List (String × Previsao)) :
    ∀ s : LotoScopeWeb,
      (∃ e ∈ pv, (e.1 = "menor_que_ultimo" ∨ e.1 = "maior_que_ultimo"
          ∨ e.1 = "igual_ao_ultimo") ∧ ∃ b, (perfisOf e.2).lookup sp = some b) →
      SomaEstimated (pv.foldl (applyEntry sp) s) := by
  induction pv with
  | nil =>
    rintro s ⟨e, he, -⟩
    exact absurd he (List.not_mem_nil e)
  | cons e pv ih =>
    rintro s ⟨x, hx, hk, b, hb⟩
    rw [List.foldl_cons]
    rcases List.mem_cons.1 hx with rfl | hx
    · exact foldl_applyEntry_keeps sp pv _ (applyEntry_sets sp s x b hk hb)
    · exact ih _ ⟨x, hx, hk, b, hb⟩

/-- On a payload whose entries all carry `perfis_risco` and whose `previsoes`
gives, for at least one of menor_que_ultimo, maior_que_ultimo and
igual_ao_ultimo, bounds for the profile applied, `applySequentialFilters`
returns and the sum bounds are `[153, 217]` if the stored `riskProfile` is
conservador, `[175, 195]` if it is agressivo and `[168, 202]` otherwise,
whatever the profile argument. -/
theorem applySequentialFilters_soma (s : LotoScopeWeb) (pv : List (String × Previsao))
    (profile : Option String) (trend : TrendFetch)
    (hall : ∀ e ∈ pv, e.2.perfis_risco ≠ none)
    (hex : ∃ e ∈ pv, (e.1 = "menor_que_ultimo" ∨ e.1 = "maior_que_ultimo"
        ∨ e.1 = "igual_ao_ultimo")
      ∧ ∃ l b, e.2.perfis_risco = some l ∧ l.lookup (selectedProfile s profile) = some b) :
    ∃ after : LotoScopeWeb,
      applySequentialFilters s (some ⟨some pv⟩) profile trend = .ok after
        ∧ after.dynamicFilters.soma_total_min
          = some (if s.riskProfile = "conservador" then 153
                  else if s.riskProfile = "agressivo" then 175 else 168)
        ∧ after.dynamicFilters.soma_total_max
          = some (if s.riskProfile = "conservador" then 217
                  else if s.riskProfile = "agressivo" then 195 else 202) := by
  have hex2 : ∃ e ∈ pv, (e.1 = "menor_que_ultimo" ∨ e.1 = "maior_que_ultimo"
      ∨ e.1 = "igual_ao_ultimo")
      ∧ ∃ b, (perfisOf e.2).lookup (selectedProfile s profile) = some b := by
    obtain ⟨e, he, hk, l, b, hl, hb⟩ := hex
    exact ⟨e, he, hk, b, by simpa [perfisOf, hl] using hb⟩
  have h := foldl_applyEntry_estimated (selectedProfile s profile) pv s hex2
  unfold SomaEstimated at h
  rw [foldl_applyEntry_riskProfile] at h
  exact ⟨_, applySequentialFilters_ok s pv profile trend hall, by simpa [showStatus] using h.1,
    by simpa [showStatus] using h.2⟩

/-! ## Claim on the sum bounds of the sequential-analysis path -/

/-- C28 at a payload with an entry that lacks `perfis_risco`: `previsoes` gives
bounds for agressivo on igual_ao_ultimo and holds a key `soma_total` first
whose entry has no `perfis_risco`. The stored `riskProfile` is moderado. The
read of `perfis_risco` throws on the first key, `updateFilterValue` is never
called, and both sum bounds stay null, where the claim gives `[168, 202]`. -/
theorem applySequentialFilters_throws_soma :
    initial.riskProfile = "moderado"
      ∧ (applySequentialFilters initial
        (some ⟨some
          [("soma_total", ⟨none⟩), ("igual_ao_ultimo", ⟨some [("agressivo", ⟨1, 2⟩)]⟩)]⟩)
        (some "agressivo") (.failed "offline")).toOption = none
      ∧ (controllerAfter (applySequentialFilters initial
        (some ⟨some
          [("soma_total", ⟨none⟩), ("igual_ao_ultimo", ⟨some [("agressivo", ⟨1, 2⟩)]⟩)]⟩)
        (some "agressivo") (.failed "offline"))).dynamicFilters.soma_total_min = none
      ∧ (controllerAfter (applySequentialFilters initial
        (some ⟨some
          [("soma_total", ⟨none⟩), ("igual_ao_ultimo", ⟨some [("agressivo", ⟨1, 2⟩)]⟩)]⟩)
        (some "agressivo") (.failed "offline"))).dynamicFilters.soma_total_max = none := by
  decide

/-! ## Number picker: order of the lists and the capacity guard -/

theorem sorted_without (l : List Int) (n : Int) (h : l.Sorted (fun a b => a < b)) :
    (without l n).Sorted (fun a b => a < b) :=
  List.Pairwise.filter _ h

theorem sorted_sortAsc (l : List Int) (h : (sortAsc l).Nodup) :
    (sortAsc l).Sorted (fun a b => a < b) :=
  (List.sorted_insertionSort (fun a b : Int => a ≤ b) l).lt_of_le h

/-- Two strictly ascending lists with the same members are equal. -/
theorem eq_of_sorted_of_mem_iff (l₁ l₂ : List Int) (h₁ : l₁.Sorted (fun a b => a < b))
    (h₂ : l₂.Sorted (fun a b => a < b)) (h : ∀ x, x ∈ l₁ ↔ x ∈ l₂) : l₁ = l₂ :=
  List.eq_of_perm_of_sorted ((List.perm_ext_iff_of_nodup h₁.nodup h₂.nodup).2 h) h₁ h₂

theorem sortedInv_initial : SortedInv initial :=
  ⟨List.sorted_nil, List.sorted_nil, List.sorted_nil, rfl⟩

theorem sortedInv_clearSelection (s : LotoScopeWeb) : SortedInv (clearSelection s) :=
  ⟨List.sorted_nil, List.sorted_nil, List.sorted_nil, rfl⟩

/-- A click on a grid number keeps the order of the lists. -/
theorem sortedInv_handleNumberClick (s : LotoScopeWeb) (n : Int) (hI : Inv s)
    (hS : SortedInv s) (h1 : 1 ≤ n) (h25 : n ≤ 25) : SortedInv (handleNumberClick s n) := by
  obtain ⟨eS, eM, eE, -⟩ := handleNumberClick_lists s n hI h1 h25
  have hI2 := inv_handleNumberClick s n hI h1 h25
  have nS := hI2.nodupS
  have nM := hI2.nodupM
  have nE := hI2.nodupE
  refine ⟨?_, ?_, ?_, rfl⟩
  · rw [eS] at nS ⊢
    split_ifs at nS ⊢
    · exact sorted_sortAsc _ nS
    · exact sorted_without _ _ hS.sortedS
  · rw [eM] at nM ⊢
    split_ifs at nM ⊢
    · exact sorted_sortAsc _ nM
    · exact sorted_without _ _ hS.sortedM
  · rw [eE] at nE ⊢
    split_ifs at nE ⊢
    · exact sorted_sortAsc _ nE
    · exact sorted_without _ _ hS.sortedE

theorem sortedInv_of_reachable (s : LotoScopeWeb) (h : Reachable s) : SortedInv s := by
  induction h with
  | init => exact sortedInv_initial
  | click s n hs h1 h25 ih =>
    exact sortedInv_handleNumberClick s n (inv_of_reachable s hs) ih h1 h25
  | clear s _ _ => exact sortedInv_clearSelection s

/-- The sorted concatenation of two ascending lists is their merge. -/
theorem sortAsc_append_eq_merge (l₁ l₂ : List Int) (h₁ : l₁.Sorted (fun a b => a ≤ b))
    (h₂ : l₂.Sorted (fun a b => a ≤ b)) :
    sortAsc (l₁ ++ l₂) = l₁.merge l₂ (fun a b => decide (a ≤ b)) :=
  List.eq_of_perm_of_sorted
    ((perm_sortAsc (l₁ ++ l₂)).trans (List.perm_merge _ l₁ l₂).symm)
    (List.sorted_insertionSort (fun a b : Int => a ≤ b) (l₁ ++ l₂))
    (h₁.merge h₂)

theorem excluded_message_ne (n : Int) :
    "🔴 Número " ++ toString n ++ " excluído" ≠ capacityMessage := by
  intro h
  have hm : '🔴' ∈ ("🔴 Número " ++ toString n ++ " excluído").data := by
    simp only [String.data_append, List.mem_append]
    exact Or.inl (Or.inl (by decide))
  rw [h] at hm
  exact absurd hm (by decide)

/-- When the test `capacityGuardFires` holds, `setNumberState` returns from its
capacity check: the number is filtered out and the status is the capacity
warning. -/
theorem setNumberState_of_fires (s : LotoScopeWeb) (n : Int) (st : NumberState)
    (h : capacityGuardFires s n st = true) :
    setNumberState s n st = showStatus (removeNumber s n) capacityMessage "warning" := by
  simp only [capacityGuardFires, Bool.and_eq_true, decide_eq_true_eq, Bool.or_eq_true,
    beq_iff_eq] at h
  obtain ⟨⟨hb, hst⟩, hlen⟩ := h
  rcases hst with rfl | rfl <;>
    simp [setNumberState, hb, removeNumber, hlen]

/-- Under the invariant the status left by a click on a grid number is not the
capacity warning. -/
theorem handleNumberClick_status_ne (s : LotoScopeWeb) (n : Int) (hI : Inv s)
    (h1 : 1 ≤ n) (h25 : n ≤ 25) : (handleNumberClick s n).status ≠ some capacityWarning := by
  have hb : n ∈ s.gridButtons := by
    rw [hI.buttons, mem_gridNumbers]
    exact ⟨h1, h25⟩
  have hcap := others_le_24 s n hI h1 h25
  have hlt : ¬ (without s.selectedNumbers n).length + (without s.mandatoryNumbers n).length ≥ 25 := by
    omega
  have hw : ¬ ("info" = "warning") := by decide
  simp only [handleNumberClick, setNumberState, hb, not_true_eq_false, if_false]
  generalize nextState (getNumberState s n) = st
  cases st
  · simp [removeNumber, showStatus, updateDisplay, capacityWarning, hw]
  · simp [removeNumber, showStatus, updateDisplay, capacityWarning, hlt, hw]
  · simp [removeNumber, showStatus, updateDisplay, capacityWarning, hlt, hw]
  · simp only [removeNumber, showStatus, updateDisplay, capacityWarning, ne_eq, Option.some.injEq,
      Status.mk.injEq, and_true]
    exact excluded_message_ne n

theorem status_ne_of_reachable (s : LotoScopeWeb) (h : Reachable s) :
    s.status ≠ some capacityWarning := by
  induction h with
  | init => simp [initial]
  | click s n hs h1 h25 _ => exact handleNumberClick_status_ne s n (inv_of_reachable s hs) h1 h25
  | clear s _ _ =>
    simp only [clearSelection, showStatus, updateDisplay, capacityWarning, ne_eq,
      Option.some.injEq, Status.mk.injEq, not_and]
    intro _
    decide

theorem nextState_ne (st : NumberState) : nextState st ≠ st := by
  cases st <;> simp [nextState]

theorem two_click_mem (x a b : Int) (hab : a ≠ b) (M Na Nb : Prop) :
    ((((M ∧ x ≠ a) ∨ (x = a ∧ Na)) ∧ x ≠ b) ∨ (x = b ∧ Nb))
      ↔ ((((M ∧ x ≠ b) ∨ (x = b ∧ Nb)) ∧ x ≠ a) ∨ (x = a ∧ Na)) := by
  by_cases h1 : x = a
  · have h2 : x ≠ b := fun e => hab (h1.symm.trans e)
    simp [h1, h2, hab]
  · by_cases h2 : x = b
    · simp [h1, h2, Ne.symm hab]
    · simp [h1, h2]

/-! ## Claims on reachable controllers of the number picker -/

/-- C24: in every execution from the initial controller made of clicks on
numbers 1..25 and of the clear button, the capacity guard never fires: the
status of a reachable controller is never the capacity warning, and for a
click on a number n of 1..25 the test of the rejection branch is false, the
status after the click is not the capacity warning, and the click is not a
no-op, as the state of n changes. -/
theorem capacity_guard_unreachable (s : LotoScopeWeb) (hs : Reachable s) (n : Int)
    (h1 : 1 ≤ n) (h25 : n ≤ 25) :
    s.status ≠ some capacityWarning
      ∧ capacityGuardFires s n (nextState (getNumberState s n)) = false
      ∧ (handleNumberClick s n).status ≠ some capacityWarning
      ∧ getNumberState (handleNumberClick s n) n ≠ getNumberState s n := by
  have hI := inv_of_reachable s hs
  refine ⟨status_ne_of_reachable s hs, ?_, handleNumberClick_status_ne s n hI h1 h25, ?_⟩
  · have hcap := others_le_24 s n hI h1 h25
    have hlt : ¬ (without s.selectedNumbers n).length
        + (without s.mandatoryNumbers n).length ≥ 25 := by omega
    simp [capacityGuardFires, hlt]
  · rw [getNumberState_click_self s n hI h1 h25]
    exact nextState_ne _

set_option maxRecDepth 100000 in
/-- Witness of C24: with the 25 numbers selected, a click on 7 is accepted. -/
theorem capacity_guard_unreachable_witness :
    (1 : Int) ≤ 7 ∧ (7 : Int) ≤ 25
      ∧ capacityGuardFires (clicks initial gridNumbers) 7
          (nextState (getNumberState (clicks initial gridNumbers) 7)) = false
      ∧ getNumberState (handleNumberClick (clicks initial gridNumbers) 7) 7
        ≠ getNumberState (clicks initial gridNumbers) 7 :=
  have hr : ∀ ns : List Int, (∀ m ∈ ns, 1 ≤ m ∧ m ≤ 25) → ∀ s, Reachable s →
      Reachable (clicks s ns) := by
    intro ns
    induction ns with
    | nil =>
      intro _ s h
      exact h
    | cons m ns ih =>
      intro hm s h
      exact ih (fun x hx => hm x (List.mem_cons_of_mem m hx)) _
        (Reachable.click s m h (hm m (List.mem_cons_self m ns)).1
          (hm m (List.mem_cons_self m ns)).2)
  have h := capacity_guard_unreachable (clicks initial gridNumbers)
    (hr gridNumbers (by decide) initial Reachable.init) 7 (by decide) (by decide)
  ⟨by decide, by decide, h.2.1, h.2.2.2⟩

/-- C25: in every reachable controller each of `selectedNumbers`,
`mandatoryNumbers` and `excludedNumbers` is strictly ascending with all its
entries in 1..25, and `fixedNumbers` is the ascending merge of
`selectedNumbers` and `mandatoryNumbers`. -/
theorem reachable_sorted (s : LotoScopeWeb) (hs : Reachable s) :
    s.selectedNumbers.Sorted (fun a b => a < b)
      ∧ s.mandatoryNumbers.Sorted (fun a b => a < b)
      ∧ s.excludedNumbers.Sorted (fun a b => a < b)
      ∧ (∀ x ∈ s.selectedNumbers, 1 ≤ x ∧ x ≤ 25)
      ∧ (∀ x ∈ s.mandatoryNumbers, 1 ≤ x ∧ x ≤ 25)
      ∧ (∀ x ∈ s.excludedNumbers, 1 ≤ x ∧ x ≤ 25)
      ∧ s.fixedNumbers
        = s.selectedNumbers.merge s.mandatoryNumbers (fun a b => decide (a ≤ b)) := by
  have hI := inv_of_reachable s hs
  have hS := sortedInv_of_reachable s hs
  refine ⟨hS.sortedS, hS.sortedM, hS.sortedE, hI.rangeS, hI.rangeM, hI.rangeE, ?_⟩
  rw [hS.fixed]
  exact sortAsc_append_eq_merge _ _ (hS.sortedS.imp (fun h => le_of_lt h))
    (hS.sortedM.imp (fun h => le_of_lt h))

/-- Witness of C25: the controller after clicks on 9, 4 and 4 holds the
selected list `[9]`, the mandatory list `[4]` and the fixed list `[4, 9]`. -/
theorem reachable_sorted_witness :
    Reachable (handleNumberClick (handleNumberClick (handleNumberClick initial 9) 4) 4)
      ∧ (handleNumberClick (handleNumberClick (handleNumberClick initial 9) 4) 4).fixedNumbers
        = [4, 9]
      ∧ (handleNumberClick (handleNumberClick (handleNumberClick initial 9) 4) 4).fixedNumbers
        = (handleNumberClick (handleNumberClick (handleNumberClick initial 9) 4) 4).selectedNumbers.merge
            (handleNumberClick (handleNumberClick (handleNumberClick initial 9) 4) 4).mandatoryNumbers
            (fun a b => decide (a ≤ b)) :=
  have hr : Reachable (handleNumberClick (handleNumberClick (handleNumberClick initial 9) 4) 4) :=
    Reachable.click _ 4
      (Reachable.click _ 4 (Reachable.click initial 9 Reachable.init (by decide) (by decide))
        (by decide) (by decide))
      (by decide) (by decide)
  ⟨hr, by decide, (reachable_sorted _ hr).2.2.2.2.2.2⟩

/-- C26: clicks on different numbers commute. For a reachable controller and
numbers a and b of 1..25 with a different from b, a click on a followed by a
click on b leaves the same `selectedNumbers`, `mandatoryNumbers`,
`excludedNumbers` and `fixedNumbers` lists as a click on b followed by a click
on a. -/
theorem handleNumberClick_comm (s : LotoScopeWeb) (hs : Reachable s) (a b : Int)
    (ha1 : 1 ≤ a) (ha25 : a ≤ 25) (hb1 : 1 ≤ b) (hb25 : b ≤ 25) (hab : a ≠ b) :
    (handleNumberClick (handleNumberClick s a) b).selectedNumbers
        = (handleNumberClick (handleNumberClick s b) a).selectedNumbers
      ∧ (handleNumberClick (handleNumberClick s a) b).mandatoryNumbers
        = (handleNumberClick (handleNumberClick s b) a).mandatoryNumbers
      ∧ (handleNumberClick (handleNumberClick s a) b).excludedNumbers
        = (handleNumberClick (handleNumberClick s b) a).excludedNumbers
      ∧ (handleNumberClick (handleNumberClick s a) b).fixedNumbers
        = (handleNumberClick (handleNumberClick s b) a).fixedNumbers := by
  have hI := inv_of_reachable s hs
  have ra := Reachable.click s a hs ha1 ha25
  have rb := Reachable.click s b hs hb1 hb25
  have hIa := inv_of_reachable _ ra
  have hIb := inv_of_reachable _ rb
  have rab := Reachable.click _ b ra hb1 hb25
  have rba := Reachable.click _ a rb ha1 ha25
  have sab := sortedInv_of_reachable _ rab
  have sba := sortedInv_of_reachable _ rba
  have gb : getNumberState (handleNumberClick s a) b = getNumberState s b :=
    getNumberState_click_other s a b hI ha1 ha25 (Ne.symm hab)
  have ga : getNumberState (handleNumberClick s b) a = getNumberState s a :=
    getNumberState_click_other s b a hI hb1 hb25 hab
  have eS : (handleNumberClick (handleNumberClick s a) b).selectedNumbers
      = (handleNumberClick (handleNumberClick s b) a).selectedNumbers := by
    apply eq_of_sorted_of_mem_iff _ _ sab.sortedS sba.sortedS
    intro x
    rw [mem_selected_click _ b x hIa hb1 hb25, mem_selected_click s a x hI ha1 ha25,
      mem_selected_click _ a x hIb ha1 ha25, mem_selected_click s b x hI hb1 hb25, gb, ga]
    exact two_click_mem x a b hab _ _ _
  have eM : (handleNumberClick (handleNumberClick s a) b).mandatoryNumbers
      = (handleNumberClick (handleNumberClick s b) a).mandatoryNumbers := by
    apply eq_of_sorted_of_mem_iff _ _ sab.sortedM sba.sortedM
    intro x
    rw [mem_mandatory_click _ b x hIa hb1 hb25, mem_mandatory_click s a x hI ha1 ha25,
      mem_mandatory_click _ a x hIb ha1 ha25, mem_mandatory_click s b x hI hb1 hb25, gb, ga]
    exact two_click_mem x a b hab _ _ _
  have eE : (handleNumberClick (handleNumberClick s a) b).excludedNumbers
      = (handleNumberClick (handleNumberClick s b) a).excludedNumbers := by
    apply eq_of_sorted_of_mem_iff _ _ sab.sortedE sba.sortedE
    intro x
    rw [mem_excluded_click _ b x hIa hb1 hb25, mem_excluded_click s a x hI ha1 ha25,
      mem_excluded_click _ a x hIb ha1 ha25, mem_excluded_click s b x hI hb1 hb25, gb, ga]
    exact two_click_mem x a b hab _ _ _
  refine ⟨eS, eM, eE, ?_⟩
  rw [sab.fixed, sba.fixed, eS, eM]

/-- Witness of C26: from the controller after a click on 5, clicks on 5 and 2
in either order leave the same lists. -/
theorem handleNumberClick_comm_witness :
    Reachable (handleNumberClick initial 5) ∧ (5 : Int) ≠ 2
      ∧ (handleNumberClick (handleNumberClick (handleNumberClick initial 5) 5) 2).selectedNumbers
        = (handleNumberClick (handleNumberClick (handleNumberClick initial 5) 2) 5).selectedNumbers
      ∧ (handleNumberClick (handleNumberClick (handleNumberClick initial 5) 5) 2).fixedNumbers
        = (handleNumberClick (handleNumberClick (handleNumberClick initial 5) 2) 5).fixedNumbers :=
  have hr : Reachable (handleNumberClick initial 5) :=
    Reachable.click initial 5 Reachable.init (by decide) (by decide)
  have h := handleNumberClick_comm (handleNumberClick initial 5) hr 5 2
    (by decide) (by decide) (by decide) (by decide) (by decide)
  ⟨hr, by decide, h.1, h.2.2.2⟩

end LotoScope
